import Mathlib

/-!
# Smart digital clock: event-and-state coordinator

Shallow embedding of `3W_02_G8_IOT102_Source_Code.c`.

Conventions of the embedding

* The globals of the sketch and the function-local `static` variables are the
  fields of `State`.
* `unsigned long` is 32 bits wide on the ESP8266.  A timestamp is a `Nat`;
  `millis` truncates the uptime to 32 bits and `subUL` is the wrapping
  subtraction of two `unsigned long` values.
* Every function takes the uptime `now` (in ms) at which it is entered.  A
  blocking `delay(n)` that is followed by another `millis()` read inside the
  same function advances the local clock by `n`.
* `HIGH` is `true`, `LOW` is `false`.
* The globals `fingerDetected`, `heartRate` and `temperature` are written only
  by the sensor routines; the functions that read them take them as
  arguments.  `temperature` is a `float`, only the outcome of the comparison
  `temperature > TEMP_HIGH` is passed.
* Output that has no effect on the state (LCD, serial port, Blynk writes) is
  left out; the level of `BUZZER_PIN` after each function is kept in
  `buzzerPin`.
* For the life cycle of the alarm the RTC is a running clock: its reading is a
  function of the uptime (`rtcAt`), and a call that stops the ring returns
  2000 ms after it was entered, the `delay(2000)` of `stopAlarmSound`
  (`wellTimed`).
-/

namespace SmartClock

/-! ## Data model -/

/-- Number of values of an `unsigned long` (32 bits). -/
def UL : Nat := 4294967296

/-- The value returned by `millis()` when the uptime is `clk` milliseconds. -/
def millis (clk : Nat) : Nat := clk % UL

/-- Wrapping subtraction `a - b` of two `unsigned long` values. -/
def subUL (a b : Nat) : Nat := (a % UL + (UL - b % UL)) % UL

/-- The record `struct AlarmData`. -/
structure AlarmData where
  hour : Int
  minute : Int
  enabled : Bool
deriving DecidableEq, Repr

/-- The fields of the DS1302 library class `Time` that the sketch reads
(`uint8_t` each). -/
structure Time where
  hour : Nat
  min : Nat
  sec : Nat
deriving DecidableEq, Repr

/-- The globals and function statics of the sketch. -/
structure State where
  alarm : AlarmData
  displayMode : Int
  autoModeSwitch : Bool
  lastModeSwitch : Nat
  forceUpdate : Bool
  alarmRinging : Bool
  alarmStartTime : Nat
  lastBuzzerToggle : Nat
  buzzerState : Bool
  lastButtonState : Bool
  buttonState : Bool
  lastDebounceTime : Nat
  alarmMuted : Bool
  hrDangerStartTime : Nat
  hrInDangerZone : Bool
  hrWarningActive : Bool
  lastHrWarningBeep : Nat
  wifiConnected : Bool
  lastWiFiCheck : Nat
  /-- `static` of `handlePhysicalButton` -/
  buttonPressTime : Nat
  /-- `static` of `handlePhysicalButton` -/
  buttonWasPressed : Bool
  /-- `static` of `checkHealthWarnings` -/
  lastTempWarning : Nat
  /-- `static` of `updateDisplay` -/
  lastDisplayedMode : Int
  /-- `static` of `updateDisplay` -/
  lastLCDUpdate : Nat
  /-- EEPROM cell 0 -/
  eeprom0 : Nat
  /-- EEPROM cell 1 -/
  eeprom1 : Nat
  /-- EEPROM cell 2 -/
  eeprom2 : Nat
  /-- level last written to `BUZZER_PIN` -/
  buzzerPin : Bool
deriving DecidableEq, Repr

def MODE_INTERVAL : Nat := 5000
def ALARM_DURATION : Nat := 60000
def DEBOUNCE_DELAY : Nat := 50
def HR_HIGH : Int := 100
def HR_LOW : Int := 60
def HR_DANGER_DURATION : Nat := 10000
def WIFI_CHECK_INTERVAL : Nat := 30000

/-- The values of the globals given by their initialisers, with the EEPROM
holding the bytes `e0 e1 e2`. -/
def powerOn (e0 e1 e2 : Nat) : State where
  alarm := ⟨7, 0, false⟩
  displayMode := 0
  autoModeSwitch := true
  lastModeSwitch := 0
  forceUpdate := false
  alarmRinging := false
  alarmStartTime := 0
  lastBuzzerToggle := 0
  buzzerState := false
  lastButtonState := true
  buttonState := true
  lastDebounceTime := 0
  alarmMuted := false
  hrDangerStartTime := 0
  hrInDangerZone := false
  hrWarningActive := false
  lastHrWarningBeep := 0
  wifiConnected := false
  lastWiFiCheck := 0
  buttonPressTime := 0
  buttonWasPressed := false
  lastTempWarning := 0
  lastDisplayedMode := -1
  lastLCDUpdate := 0
  eeprom0 := e0
  eeprom1 := e1
  eeprom2 := e2
  buzzerPin := false

/-! ## EEPROM -/

/-- The byte stored by `EEPROM.write(addr, v)` for an `int` value `v`. -/
def toByte (v : Int) : Nat := (v % 256).toNat

/-- `saveAlarm()` -/
def saveAlarm (s : State) : State :=
  { s with
    eeprom0 := toByte s.alarm.hour
    eeprom1 := toByte s.alarm.minute
    eeprom2 := toByte (if s.alarm.enabled then 1 else 0) }

/-- `loadAlarm()` -/
def loadAlarm (s : State) : State :=
  let hour : Int := s.eeprom0
  let minute : Int := s.eeprom1
  let enabled : Bool := s.eeprom2 == 1
  let hour := if hour > 23 then 7 else hour
  let minute := if minute > 59 then 0 else minute
  { s with alarm := ⟨hour, minute, enabled⟩ }

/-! ## Alarm control -/

/-- `stopAlarmSound(source)` -/
def stopAlarmSound (s : State) : State :=
  { s with
    alarmRinging := false
    buzzerPin := false
    buzzerState := false
    forceUpdate := true }

/-- `playAlarmSound()` -/
def playAlarmSound (s : State) (now : Nat) : State :=
  if subUL (millis now) s.lastBuzzerToggle > (if s.buzzerState then 1000 else 500) then
    { s with
      lastBuzzerToggle := millis now
      buzzerState := !s.buzzerState
      buzzerPin := !s.buzzerState }
  else s

/-- `checkAlarm()`; `t` is the reading of `rtc.getTime()`. -/
def checkAlarm (s : State) (t : Time) (now : Nat) : State :=
  if !s.alarm.enabled then
    if s.alarmRinging then stopAlarmSound s else s
  else
    let s1 :=
      if (t.hour : Int) = s.alarm.hour ∧ (t.min : Int) = s.alarm.minute ∧ t.sec = 0
          ∧ s.alarmRinging = false then
        { s with alarmRinging := true, alarmStartTime := millis now }
      else s
    if s1.alarmRinging then
      let s2 := playAlarmSound s1 now
      if subUL (millis now) s2.alarmStartTime > ALARM_DURATION then stopAlarmSound s2 else s2
    else s1

/-! ## Physical button -/

/-- `handlePhysicalButton()`; `reading` is the value of
`digitalRead(BUTTON_PIN)`. -/
def handlePhysicalButton (s : State) (reading : Bool) (now : Nat) : State :=
  let s0 := if reading != s.lastButtonState then { s with lastDebounceTime := millis now } else s
  let s1 :=
    if subUL (millis now) s0.lastDebounceTime > DEBOUNCE_DELAY then
      if reading != s0.buttonState then
        let s2 := { s0 with buttonState := reading }
        if s2.buttonState == false then
          { s2 with buttonPressTime := millis now, buttonWasPressed := true }
        else if s2.buttonWasPressed then
          let s3 := { s2 with buttonWasPressed := false }
          let pressDuration := subUL (millis now) s3.buttonPressTime
          if s3.alarmRinging then stopAlarmSound s3
          else if pressDuration < 1000 then
            { s3 with
              displayMode := Int.tmod (s3.displayMode + 1) 3
              autoModeSwitch := if s3.autoModeSwitch then false else s3.autoModeSwitch
              buzzerPin := false
              forceUpdate := true }
          else if s3.displayMode = 1 then
            { s3 with
              alarmMuted := !s3.alarmMuted
              buzzerPin := false
              forceUpdate := true }
          else { s3 with forceUpdate := true }
        else s2
      else s0
    else s0
  { s1 with lastButtonState := reading }

/-! ## Health warnings -/

/-- The value of `currentlyInDanger` at the end of the heart-rate part of
`checkHealthWarnings()`: the branch at `heartRate >= HR_HIGH || heartRate <= HR_LOW`
below `fingerDetected && heartRate > 0`. -/
def currentlyInDanger (fingerDetected : Bool) (heartRate : Int) : Bool :=
  if fingerDetected && decide (heartRate > 0) then
    if decide (heartRate ≥ HR_HIGH) || decide (heartRate ≤ HR_LOW) then true else false
  else false

/-- The body of the branch of `checkHealthWarnings()` taken when the reading is
in the danger band.  The second component is the uptime after the branch. -/
def hrDangerBranch (s : State) (now : Nat) : State × Nat :=
  let s1 :=
    if !s.hrInDangerZone then
      { s with hrInDangerZone := true, hrDangerStartTime := millis now }
    else s
  let timeInDanger := subUL (millis now) s1.hrDangerStartTime
  let r2 : State × Nat :=
    if decide (timeInDanger ≥ HR_DANGER_DURATION) && !s1.hrWarningActive then
      ({ s1 with hrWarningActive := true, forceUpdate := true }, now + 2000)
    else (s1, now)
  if r2.1.hrWarningActive && !r2.1.alarmMuted then
    if subUL (millis r2.2) r2.1.lastHrWarningBeep ≥ 2000 then
      ({ r2.1 with lastHrWarningBeep := millis r2.2, buzzerPin := false }, r2.2 + 600)
    else r2
  else r2

/-- The block `if (!currentlyInDanger && hrInDangerZone)` of
`checkHealthWarnings()`. -/
def hrLeaveBranch (r : State × Nat) : State × Nat :=
  let s1 := { r.1 with hrInDangerZone := false }
  if s1.hrWarningActive then
    ({ s1 with hrWarningActive := false, forceUpdate := true }, r.2 + 1500)
  else (s1, r.2)

/-- The temperature part of `checkHealthWarnings()`; `tempHigh` is the outcome
of `temperature > TEMP_HIGH`. -/
def tempWarning (r : State × Nat) (tempHigh : Bool) : State :=
  if tempHigh && decide (subUL (millis r.2) r.1.lastTempWarning > 30000) then
    { r.1 with lastTempWarning := millis r.2, buzzerPin := false, forceUpdate := true }
  else r.1

/-- `checkHealthWarnings()` -/
def checkHealthWarnings (s : State) (now : Nat) (fingerDetected : Bool) (heartRate : Int)
    (tempHigh : Bool) : State :=
  let inDanger := currentlyInDanger fingerDetected heartRate
  let r1 : State × Nat := if inDanger then hrDangerBranch s now else (s, now)
  let r2 : State × Nat := if !inDanger && r1.1.hrInDangerZone then hrLeaveBranch r1 else r1
  tempWarning r2 tempHigh

/-! ## Display -/

/-- `updateDisplay()` -/
def updateDisplay (s : State) (now : Nat) : State :=
  let s1 :=
    if s.autoModeSwitch && decide (subUL (millis now) s.lastModeSwitch ≥ MODE_INTERVAL) then
      { s with
        lastModeSwitch := millis now
        displayMode := Int.tmod (s.displayMode + 1) 3
        forceUpdate := true }
    else s
  if s1.forceUpdate || s1.lastDisplayedMode != s1.displayMode
      || decide (subUL (millis now) s1.lastLCDUpdate > 500) then
    { s1 with
      lastDisplayedMode := s1.displayMode
      lastLCDUpdate := millis now
      forceUpdate := false }
  else s1

/-! ## Remote handlers -/

/-- `BLYNK_WRITE(V_ALARM_HOUR)` with `param.asInt() = v` -/
def BLYNK_WRITE_V_ALARM_HOUR (s : State) (v : Int) : State :=
  saveAlarm { s with alarm := { s.alarm with hour := v } }

/-- `BLYNK_WRITE(V_ALARM_MIN)` with `param.asInt() = v` -/
def BLYNK_WRITE_V_ALARM_MIN (s : State) (v : Int) : State :=
  saveAlarm { s with alarm := { s.alarm with minute := v } }

/-- `BLYNK_WRITE(V_ALARM_EN)` with `param.asInt() = v` -/
def BLYNK_WRITE_V_ALARM_EN (s : State) (v : Int) : State :=
  saveAlarm { s with alarm := { s.alarm with enabled := decide (v ≠ 0) } }

/-- `BLYNK_WRITE(V_STOP_ALARM)` with `param.asInt() = v` -/
def BLYNK_WRITE_V_STOP_ALARM (s : State) (v : Int) : State :=
  if decide (v = 1) && s.alarmRinging then stopAlarmSound s else s

/-- `BLYNK_WRITE(V_AUTO_MODE)` with `param.asInt() = v` -/
def BLYNK_WRITE_V_AUTO_MODE (s : State) (v : Int) (now : Nat) : State :=
  let s1 := { s with autoModeSwitch := decide (v ≠ 0) }
  let s2 := if s1.autoModeSwitch then { s1 with lastModeSwitch := millis now } else s1
  { s2 with forceUpdate := true }

/-- `BLYNK_WRITE(V_SELECT_MODE)` with `param.asInt() = v` -/
def BLYNK_WRITE_V_SELECT_MODE (s : State) (v : Int) : State :=
  let newMode := v
  if newMode ≥ 0 ∧ newMode ≤ 2 then
    let s1 := { s with displayMode := newMode }
    let s2 := if s1.autoModeSwitch then { s1 with autoModeSwitch := false } else s1
    { s2 with forceUpdate := true }
  else s

/-- `BLYNK_WRITE(V_NEXT_MODE)` with `param.asInt() = v` -/
def BLYNK_WRITE_V_NEXT_MODE (s : State) (v : Int) : State :=
  if v = 1 then
    let s1 := { s with displayMode := Int.tmod (s.displayMode + 1) 3 }
    let s2 := if s1.autoModeSwitch then { s1 with autoModeSwitch := false } else s1
    { s2 with buzzerPin := false, forceUpdate := true }
  else s

/-- `checkWiFiStatus()`; `connected` is the outcome of
`WiFi.status() == WL_CONNECTED`. -/
def checkWiFiStatus (s : State) (connected : Bool) (now : Nat) : State :=
  if subUL (millis now) s.lastWiFiCheck < WIFI_CHECK_INTERVAL then s
  else
    let s1 := { s with lastWiFiCheck := millis now }
    if connected != s1.wifiConnected then
      { s1 with wifiConnected := connected, forceUpdate := true }
    else s1

/-! ## Runs -/

/-- One call of a state-changing function of the sketch, with its inputs: the
remote handlers and the functions called by `loop()`.  `readHeartRate()` and
`readSensors()` write only the sensor globals, which are inputs here, and
`sendDataToBlynk()` and `updateStatusDisplay()` write no global. -/
inductive Op where
  | alarmHour (v : Int)
  | alarmMin (v : Int)
  | alarmEn (v : Int)
  | stopAlarm (v : Int)
  | autoMode (v : Int) (now : Nat)
  | selectMode (v : Int)
  | nextMode (v : Int)
  | wifi (connected : Bool) (now : Nat)
  | alarmTick (t : Time) (now : Nat)
  | healthTick (now : Nat) (fingerDetected : Bool) (heartRate : Int) (tempHigh : Bool)
  | button (reading : Bool) (now : Nat)
  | display (now : Nat)
deriving DecidableEq, Repr

/-- The effect of one call. -/
def Op.apply (s : State) : Op → State
  | .alarmHour v => BLYNK_WRITE_V_ALARM_HOUR s v
  | .alarmMin v => BLYNK_WRITE_V_ALARM_MIN s v
  | .alarmEn v => BLYNK_WRITE_V_ALARM_EN s v
  | .stopAlarm v => BLYNK_WRITE_V_STOP_ALARM s v
  | .autoMode v now => BLYNK_WRITE_V_AUTO_MODE s v now
  | .selectMode v => BLYNK_WRITE_V_SELECT_MODE s v
  | .nextMode v => BLYNK_WRITE_V_NEXT_MODE s v
  | .wifi c now => checkWiFiStatus s c now
  | .alarmTick t now => checkAlarm s t now
  | .healthTick now f hr th => checkHealthWarnings s now f hr th
  | .button r now => handlePhysicalButton s r now
  | .display now => updateDisplay s now

/-- The state after a sequence of calls. -/
def runOps (s : State) (ops : List Op) : State := ops.foldl Op.apply s

/-- The call is the set-auto handler with a true (non-zero) value. -/
def Op.isSetAutoTrue : Op → Bool
  | .autoMode v _ => decide (v ≠ 0)
  | _ => false

/-- `setup()`: the initialised globals, the alarm loaded from the EEPROM and
the outcome `wifi` of the connection attempt. -/
def setup (e0 e1 e2 : Nat) (wifi : Bool) : State :=
  { loadAlarm (powerOn e0 e1 e2) with wifiConnected := wifi }

/-! ## Observers used in the statements -/

/-- Number of calls in a run on which `alarmRinging` goes from `false` to
`true`. -/
def risingEdges (s : State) : List Op → Nat
  | [] => 0
  | op :: ops =>
    (if !s.alarmRinging && (op.apply s).alarmRinging then 1 else 0)
      + risingEdges (op.apply s) ops

/-- The guards `(millis() - lastDebounceTime) > DEBOUNCE_DELAY` and
`reading != buttonState` of `handlePhysicalButton()` both pass on this call:
the debounced button state changes to `reading`. -/
def accepted (s : State) (reading : Bool) (now : Nat) : Bool :=
  decide (subUL (millis now)
      (if reading != s.lastButtonState then millis now else s.lastDebounceTime)
        > DEBOUNCE_DELAY)
    && (reading != s.buttonState)

/-- A debounced `LOW` is always recorded as a press, and the display mode is
one of 0, 1, 2. -/
def Inv (s : State) : Prop :=
  (s.buttonState = false → s.buttonWasPressed = true) ∧ 0 ≤ s.displayMode ∧ s.displayMode ≤ 2

/-- Start state of the alarm scenario: alarm 07:30 enabled in the EEPROM. -/
def alarmDemoStart : State := setup 7 30 1 false

/-- The calls of `checkAlarm()` with the given clock readings and uptimes. -/
def alarmTicks (ps : List (Time × Nat)) : List Op := ps.map (fun p => Op.alarmTick p.1 p.2)

/-- The clock reading is `hour:minute:00` of the alarm configuration. -/
def clockMatches (s : State) (t : Time) : Prop :=
  (t.hour : Int) = s.alarm.hour ∧ (t.min : Int) = s.alarm.minute ∧ t.sec = 0

instance (s : State) (t : Time) : Decidable (clockMatches s t) := by
  unfold clockMatches; infer_instance

/-- The states the sketch can be in: those reached from `setup()` by calls of
its functions. -/
def Reachable (s : State) : Prop :=
  ∃ (e0 e1 e2 : Nat) (wifi : Bool) (ops : List Op), s = runOps (setup e0 e1 e2 wifi) ops

/-- The calls of `handlePhysicalButton()` with the given raw readings and
uptimes. -/
def buttonSamples (xs : List (Bool × Nat)) : List Op := xs.map (fun x => Op.button x.1 x.2)

/-- Every sample is taken less than 50 ms after the most recent raw transition
observed so far; `last` is the previous raw reading and `lastT` the time of
the most recent observed transition. -/
def withinDebounce (last : Bool) (lastT : Nat) : List (Bool × Nat) → Bool
  | [] => true
  | x :: rest =>
    decide (subUL (millis x.2) (if x.1 != last then millis x.2 else lastT) < 50)
      && withinDebounce x.1 (if x.1 != last then millis x.2 else lastT) rest

/-- The fields that only the button handler, the mode handlers and the display
step write. -/
def sameControls (s s' : State) : Prop :=
  s'.buttonState = s.buttonState ∧ s'.buttonWasPressed = s.buttonWasPressed
    ∧ s'.displayMode = s.displayMode ∧ s'.autoModeSwitch = s.autoModeSwitch

/-- Scenario for the button: alarm 07:30 enabled, the button pressed (raw `LOW`
at 100 ms, accepted at 200 ms), the alarm started at 07:30:00 and the button
let go (raw `HIGH` at 400 ms). -/
def ringingPressed : State :=
  runOps (setup 7 30 1 false)
    [.button false 100, .button false 200, .alarmTick ⟨7, 30, 0⟩ 300, .button true 400]

/-- Scenario for the button: no alarm, display mode 1 selected, the button
pressed (raw `LOW` at 100 ms, accepted at 200 ms) and let go (raw `HIGH` at
1100 ms). -/
def idlePressed : State :=
  runOps (setup 7 30 0 false)
    [.selectMode 1, .button false 100, .button false 200, .button true 1100]

/-- The inputs of one call of `checkHealthWarnings()`. -/
structure HealthTick where
  now : Nat
  fingerDetected : Bool
  heartRate : Int
  tempHigh : Bool
deriving DecidableEq, Repr

/-- The reading of the tick is in the danger band. -/
def HealthTick.inDanger (x : HealthTick) : Bool := currentlyInDanger x.fingerDetected x.heartRate

/-- The call of `checkHealthWarnings()` with the inputs of the tick. -/
def HealthTick.op (x : HealthTick) : Op := .healthTick x.now x.fingerDetected x.heartRate x.tempHigh

/-- The calls of `checkHealthWarnings()` with the given inputs. -/
def healthTicks (xs : List HealthTick) : List Op := xs.map HealthTick.op

/-- Number of calls in a run on which `hrWarningActive` goes from `false` to
`true`. -/
def warningsRaised (s : State) : List Op → Nat
  | [] => 0
  | op :: ops =>
    (if !s.hrWarningActive && (op.apply s).hrWarningActive then 1 else 0)
      + warningsRaised (op.apply s) ops

/-- Some tick of the list has a dwell of at least `HR_DANGER_DURATION` since
the entry time `e`. -/
def dwellReached (e : Nat) (xs : List HealthTick) : Bool :=
  xs.any (fun x => decide (subUL (millis x.now) e ≥ HR_DANGER_DURATION))

/-- Every stay of the reading in the danger band is shorter than
`HR_DANGER_DURATION`: each in-band tick is less than that after the first tick
of its stay.  `entry` is the entry time of the stay in progress, if any. -/
def shortStays (entry : Option Nat) : List HealthTick → Bool
  | [] => true
  | x :: rest =>
    if x.inDanger then
      decide (subUL (millis x.now) (entry.getD (millis x.now)) < HR_DANGER_DURATION)
        && shortStays (some (entry.getD (millis x.now))) rest
    else shortStays none rest

/-- State of the heart-rate scenario: the reading 50 BPM with the finger
present has put the monitor in the danger zone at uptime 1000 ms. -/
def inZoneDemo : State := checkHealthWarnings (setup 7 0 0 false) 1000 true 50 false

/-- The monitor has been in the danger band on every tick since the dwell
started: either the dwell started at a tick `entry` of the run `pre` and every
tick from `entry` on is in the band, or it started before the run and every
tick of the run is in the band.  `S` is the state after `pre`. -/
def ZoneSince (s0 : State) (pre : List HealthTick) (S : State) : Prop :=
  (∃ (before : List HealthTick) (entry : HealthTick) (stay : List HealthTick),
      pre = before ++ entry :: stay
      ∧ (∀ y ∈ entry :: stay, y.inDanger = true)
      ∧ S.hrDangerStartTime = millis entry.now)
  ∨ (s0.hrInDangerZone = true
      ∧ S.hrDangerStartTime = s0.hrDangerStartTime
      ∧ ∀ y ∈ pre, y.inDanger = true)

/-- A health tick at uptime `now` with the finger present and the given heart
rate. -/
def hrTick (now : Nat) (heartRate : Int) : HealthTick := ⟨now, true, heartRate, false⟩

/-- Calls after a manual selection, none of them the set-auto handler with a
true value: display steps long after the selection, a health tick, a bounce
of the button, an alarm tick and the set-auto handler with value 0. -/
def idleOps : List Op :=
  [.display 6000, .healthTick 7000 true 72 false, .button false 7100, .button true 7120,
    .alarmTick ⟨7, 0, 0⟩ 8000, .autoMode 0 9000, .wifi true 40000, .display 600000]

/-- The state after calls of `playAlarmSound()` at the uptimes `ns`. -/
def playTicks (s : State) (ns : List Nat) : State := ns.foldl playAlarmSound s

/-- The wait of `playAlarmSound()` before the next toggle:
`buzzerState ? 1000 : 500`. -/
def toggleWait (s : State) : Nat := if s.buzzerState then 1000 else 500

/-- State of the buzzer scenario: alarm 07:30 started at uptime 1000 ms, which
has switched the buzzer on at 1000 ms. -/
def buzzerOnDemo : State := checkAlarm alarmDemoStart ⟨7, 30, 0⟩ 1000

/-- The alarm configuration is in range. -/
def alarmInRange (s : State) : Prop :=
  0 ≤ s.alarm.hour ∧ s.alarm.hour ≤ 23 ∧ 0 ≤ s.alarm.minute ∧ s.alarm.minute ≤ 59

instance (s : State) : Decidable (alarmInRange s) := by
  unfold alarmInRange; infer_instance

/-- The reading of a running RTC at uptime `now` (in ms), for an RTC that
showed the time of day `base` ms after midnight at uptime 0.  `setup()` starts
the clock with `rtc.halt(false)` and the sketch never sets it. -/
def rtcAt (base now : Nat) : Time :=
  ⟨(base + now) / 1000 % 86400 / 3600,
    (base + now) / 1000 % 86400 / 60 % 60,
    (base + now) / 1000 % 86400 % 60⟩

/-- The second of the RTC, counted from the midnight before uptime 0, in which
the uptime `now` falls. -/
def rtcSecond (base now : Nat) : Nat := (base + now) / 1000

/-- A call in the life of the alarm, entered at uptime `now`: a `checkAlarm()`
tick, the remote acknowledgement `BLYNK_WRITE(V_STOP_ALARM)` with value 1, or
a call of `handlePhysicalButton()` with a raw reading. -/
inductive AlarmEvent where
  | tick (now : Nat)
  | ackRemote (now : Nat)
  | button (reading : Bool) (now : Nat)
deriving DecidableEq, Repr

/-- The uptime at which the call is entered. -/
def AlarmEvent.now : AlarmEvent → Nat
  | .tick now => now
  | .ackRemote now => now
  | .button _ now => now

/-- The call, with the reading of the running RTC for a tick. -/
def AlarmEvent.op (base : Nat) : AlarmEvent → Op
  | .tick now => .alarmTick (rtcAt base now) now
  | .ackRemote _ => .stopAlarm 1
  | .button r now => .button r now

/-- The state after the call. -/
def alarmStep (base : Nat) (s : State) (e : AlarmEvent) : State := (e.op base).apply s

/-- Time for which the call blocks at least: `alarmRinging` is cleared only in
`stopAlarmSound()`, which waits `delay(2000)` before it returns. -/
def blockedFor (base : Nat) (s : State) (e : AlarmEvent) : Nat :=
  if s.alarmRinging && !(alarmStep base s e).alarmRinging then 2000 else 0

/-- The calls are entered in order of time, none before the previous call has
returned; `earliest` is the uptime at which the previous call returned. -/
def wellTimed (base : Nat) : State → Nat → List AlarmEvent → Bool
  | _, _, [] => true
  | s, earliest, e :: rest =>
    decide (earliest ≤ e.now)
      && wellTimed base (alarmStep base s e) (e.now + blockedFor base s e) rest

/-- The uptimes of the calls on which `alarmRinging` goes from `false` to
`true`. -/
def riseTimes (base : Nat) : State → List AlarmEvent → List Nat
  | _, [] => []
  | s, e :: rest =>
    (if !s.alarmRinging && (alarmStep base s e).alarmRinging then [e.now] else [])
      ++ riseTimes base (alarmStep base s e) rest

/-- Time of day of the RTC at uptime 0 in the alarm scenario: the RTC reads
07:30:00 from uptime 1000 ms on. -/
def rtcDemoBase : Nat := 26999000

/-- Calls of the alarm scenario after the first tick at uptime 1000 ms: a tick
in the same second, the remote acknowledgement at 1500 ms (the ring stops, the
call blocks for 2000 ms), ticks at 07:30:02, a button sample, and the tick at
07:30:00 of the next day. -/
def alarmDayEvents : List AlarmEvent :=
  [.tick 1300, .ackRemote 1500, .tick 3500, .tick 3600, .button true 3700, .tick 45000,
    .tick 86401000]

/-! ## Arithmetic of timestamps -/

theorem subUL_millis_self (n : Nat) : subUL (millis n) (millis n) = 0 := by
  simp only [subUL, millis, UL]; omega

theorem subUL_millis_left (a b : Nat) : subUL (millis a) b = subUL a b := by
  simp only [subUL, millis, UL]; omega

/-! ## Alarm -/

theorem stopAlarmSound_alarmRinging (s : State) : (stopAlarmSound s).alarmRinging = false := rfl

theorem playAlarmSound_frame (s : State) (now : Nat) :
    (playAlarmSound s now).alarmRinging = s.alarmRinging
    ∧ (playAlarmSound s now).alarmStartTime = s.alarmStartTime
    ∧ (playAlarmSound s now).alarm = s.alarm := by
  unfold playAlarmSound; split_ifs <;> simp

/-- One tick from idle on which the clock matches: the ring starts now. -/
theorem checkAlarm_start (s : State) (t : Time) (now : Nat)
    (hen : s.alarm.enabled = true) (hidle : s.alarmRinging = false)
    (hclock : (t.hour : Int) = s.alarm.hour ∧ (t.min : Int) = s.alarm.minute ∧ t.sec = 0) :
    (checkAlarm s t now).alarmRinging = true
    ∧ (checkAlarm s t now).alarmStartTime = millis now
    ∧ (checkAlarm s t now).alarm = s.alarm := by
  obtain ⟨h1, h2, h3⟩ := hclock
  have hp := playAlarmSound_frame { s with alarmRinging := true, alarmStartTime := millis now } now
  simp only [checkAlarm, hen, hidle, h1, h2, h3, Bool.not_true, Bool.false_eq_true,
    if_false, and_self, if_true, hp.2.1, subUL_millis_self, ALARM_DURATION]
  simpa using hp

/-- One tick from idle on which the clock does not match: nothing rings. -/
theorem checkAlarm_idle (s : State) (t : Time) (now : Nat)
    (hen : s.alarm.enabled = true) (hidle : s.alarmRinging = false)
    (hclock : ¬ ((t.hour : Int) = s.alarm.hour ∧ (t.min : Int) = s.alarm.minute ∧ t.sec = 0)) :
    checkAlarm s t now = s := by
  have hc : ¬ ((t.hour : Int) = s.alarm.hour ∧ (t.min : Int) = s.alarm.minute ∧ t.sec = 0
      ∧ s.alarmRinging = false) := by
    intro h; exact hclock ⟨h.1, h.2.1, h.2.2.1⟩
  simp only [checkAlarm, if_neg hc]
  simp [hen, hidle]

/-- One tick while ringing with the alarm enabled. -/
theorem checkAlarm_ringing (s : State) (t : Time) (now : Nat)
    (hen : s.alarm.enabled = true) (hring : s.alarmRinging = true) :
    (checkAlarm s t now).alarmRinging
        = decide (subUL (millis now) s.alarmStartTime ≤ ALARM_DURATION)
    ∧ (checkAlarm s t now).alarmStartTime = s.alarmStartTime
    ∧ (checkAlarm s t now).alarm = s.alarm := by
  have hp := playAlarmSound_frame s now
  simp only [checkAlarm, hen, hring, Bool.not_true, Bool.false_eq_true, if_false, and_false,
    Bool.true_eq_false, if_true, hp.2.1]
  by_cases h : subUL (millis now) s.alarmStartTime > ALARM_DURATION
  · simp only [h, if_true]
    refine ⟨?_, ?_, ?_⟩
    · simp [stopAlarmSound]; omega
    · simpa [stopAlarmSound] using hp.2.1
    · simpa [stopAlarmSound] using hp.2.2
  · simp only [h, if_false]
    refine ⟨?_, hp.2.1, hp.2.2⟩
    rw [hp.1, hring]; simp; omega

theorem runOps_cons (s : State) (op : Op) (ops : List Op) :
    runOps s (op :: ops) = runOps (op.apply s) ops := rfl

theorem runOps_append (s : State) (ops ops' : List Op) :
    runOps s (ops ++ ops') = runOps (runOps s ops) ops' := by
  simp [runOps, List.foldl_append]

/-- While the ring is younger than `ALARM_DURATION` on every tick, it goes on
and no new ring starts. -/
theorem ring_goes_on (ps : List (Time × Nat)) :
    ∀ s : State, s.alarm.enabled = true → s.alarmRinging = true →
      (∀ p ∈ ps, subUL (millis p.2) s.alarmStartTime ≤ ALARM_DURATION) →
      risingEdges s (alarmTicks ps) = 0
      ∧ (runOps s (alarmTicks ps)).alarmRinging = true
      ∧ (runOps s (alarmTicks ps)).alarmStartTime = s.alarmStartTime
      ∧ (runOps s (alarmTicks ps)).alarm = s.alarm := by
  induction ps with
  | nil => intro s _ hring _; exact ⟨rfl, hring, rfl, rfl⟩
  | cons p ps ih =>
    intro s hen hring hwin
    have h1 := checkAlarm_ringing s p.1 p.2 hen hring
    have hp : subUL (millis p.2) s.alarmStartTime ≤ ALARM_DURATION := hwin p (by simp)
    have hr : (checkAlarm s p.1 p.2).alarmRinging = true := by rw [h1.1]; simpa using hp
    have hen' : (checkAlarm s p.1 p.2).alarm.enabled = true := by rw [h1.2.2]; exact hen
    have ih' := ih (checkAlarm s p.1 p.2) hen' hr (by
      intro q hq; rw [h1.2.1]; exact hwin q (by simp [hq]))
    simp only [alarmTicks, List.map_cons, risingEdges, runOps_cons, Op.apply] at ih' ⊢
    refine ⟨?_, ih'.2.1, ?_, ?_⟩
    · rw [ih'.1, hring]; simp
    · rw [ih'.2.2.1, h1.2.1]
    · rw [ih'.2.2.2, h1.2.2]

/-- C2: with the alarm enabled and ringing, a `checkAlarm` tick leaves
`alarmRinging` true exactly when the wrapping difference
`millis() - alarmStartTime` is at most 60000 ms; over a run of ticks the ring
goes on (start time unchanged) while the difference is at most 60000 and the
first tick with a larger difference ends it. -/
theorem checkAlarm_timeout_after_60s (s : State) (pre : List (Time × Nat))
    (last : Time × Nat)
    (hen : s.alarm.enabled = true) (hring : s.alarmRinging = true)
    (hpre : ∀ p ∈ pre, subUL (millis p.2) s.alarmStartTime ≤ 60000)
    (hlast : subUL (millis last.2) s.alarmStartTime > 60000) :
    (∀ (u : Time) (n : Nat),
        (checkAlarm s u n).alarmRinging = decide (subUL (millis n) s.alarmStartTime ≤ 60000))
    ∧ (runOps s (alarmTicks pre)).alarmRinging = true
    ∧ (runOps s (alarmTicks pre)).alarmStartTime = s.alarmStartTime
    ∧ (runOps s (alarmTicks (pre ++ [last]))).alarmRinging = false := by
  have hrun := ring_goes_on pre s hen hring hpre
  refine ⟨fun u n => (checkAlarm_ringing s u n hen hring).1, hrun.2.1, hrun.2.2.1, ?_⟩
  have hen' : (runOps s (alarmTicks pre)).alarm.enabled = true := by rw [hrun.2.2.2]; exact hen
  have h := (checkAlarm_ringing (runOps s (alarmTicks pre)) last.1 last.2 hen' hrun.2.1).1
  rw [hrun.2.2.1] at h
  simp only [alarmTicks, List.map_append, List.map_cons, List.map_nil, runOps_append] at h ⊢
  show (checkAlarm _ last.1 last.2).alarmRinging = false
  rw [h]
  simp only [ALARM_DURATION, decide_eq_false_iff_not]
  omega

theorem checkAlarm_timeout_after_60s_witness :
    (∀ (u : Time) (n : Nat),
        (checkAlarm (checkAlarm alarmDemoStart ⟨7, 30, 0⟩ 1000) u n).alarmRinging
          = decide (subUL (millis n) (checkAlarm alarmDemoStart ⟨7, 30, 0⟩ 1000).alarmStartTime
              ≤ 60000))
    ∧ (runOps (checkAlarm alarmDemoStart ⟨7, 30, 0⟩ 1000)
        (alarmTicks [(⟨7, 30, 30⟩, 31000), (⟨7, 31, 0⟩, 61000)])).alarmRinging = true
    ∧ (runOps (checkAlarm alarmDemoStart ⟨7, 30, 0⟩ 1000)
        (alarmTicks [(⟨7, 30, 30⟩, 31000), (⟨7, 31, 0⟩, 61000)])).alarmStartTime
        = (checkAlarm alarmDemoStart ⟨7, 30, 0⟩ 1000).alarmStartTime
    ∧ (runOps (checkAlarm alarmDemoStart ⟨7, 30, 0⟩ 1000)
        (alarmTicks ([(⟨7, 30, 30⟩, 31000), (⟨7, 31, 0⟩, 61000)]
          ++ [(⟨7, 31, 0⟩, 61001)]))).alarmRinging = false :=
  checkAlarm_timeout_after_60s (checkAlarm alarmDemoStart ⟨7, 30, 0⟩ 1000)
    [(⟨7, 30, 30⟩, 31000), (⟨7, 31, 0⟩, 61000)] (⟨7, 31, 0⟩, 61001)
    (by decide) (by decide) (by decide) (by decide)

/-! ## Invariant of the reachable states -/

theorem tmod_succ_three (d : Int) (h0 : 0 ≤ d) : Int.tmod (d + 1) 3 = (d + 1) % 3 :=
  Int.tmod_eq_emod (by omega) (by omega)

theorem Inv_setup (e0 e1 e2 : Nat) (wifi : Bool) : Inv (setup e0 e1 e2 wifi) := by
  simp [Inv, setup, loadAlarm, powerOn]

/-- The uptime stored in `lastDebounceTime` by a call of
`handlePhysicalButton()`. -/
theorem handlePhysicalButton_quiet (s : State) (r : Bool) (now : Nat)
    (h : ¬ subUL (millis now) (if r != s.lastButtonState then millis now else s.lastDebounceTime)
        > DEBOUNCE_DELAY) :
    handlePhysicalButton s r now
      = { s with
          lastDebounceTime := if r != s.lastButtonState then millis now else s.lastDebounceTime
          lastButtonState := r } := by
  unfold handlePhysicalButton
  by_cases hr : (r != s.lastButtonState) = true
  · simp only [hr, if_true] at h ⊢
    rw [if_neg h]
  · simp only [hr] at h ⊢
    simp only [Bool.false_eq_true, if_false] at h ⊢
    rw [if_neg h]

theorem debounced_stable (s : State) (r : Bool) (now : Nat)
    (h : subUL (millis now) (if r != s.lastButtonState then millis now else s.lastDebounceTime)
        > DEBOUNCE_DELAY) :
    s.lastButtonState = r ∧ subUL (millis now) s.lastDebounceTime > DEBOUNCE_DELAY := by
  by_cases hr : (r != s.lastButtonState) = true
  · simp only [hr, if_true, subUL_millis_self, DEBOUNCE_DELAY] at h
    omega
  · simp only [hr, Bool.false_eq_true, if_false] at h
    refine ⟨?_, h⟩
    cases r <;> cases hl : s.lastButtonState <;> simp_all

theorem handlePhysicalButton_same (s : State) (r : Bool) (now : Nat)
    (h : subUL (millis now) (if r != s.lastButtonState then millis now else s.lastDebounceTime)
        > DEBOUNCE_DELAY) (hsame : s.buttonState = r) :
    handlePhysicalButton s r now = s := by
  obtain ⟨hl, hd⟩ := debounced_stable s r now h
  unfold handlePhysicalButton
  subst hl
  simp only [bne_self_eq_false, Bool.false_eq_true, if_false, hd, if_true, hsame]
  cases s; simp_all

theorem handlePhysicalButton_press (s : State) (now : Nat)
    (h : accepted s false now = true) :
    handlePhysicalButton s false now
      = { s with buttonState := false, buttonPressTime := millis now, buttonWasPressed := true } := by
  simp only [accepted, Bool.and_eq_true, decide_eq_true_eq] at h
  obtain ⟨hl, hd⟩ := debounced_stable s false now h.1
  have hb : s.buttonState = true := by
    cases hbs : s.buttonState <;> simp_all
  unfold handlePhysicalButton
  rw [hl] at *
  simp [hd, hb, hl]

theorem handlePhysicalButton_release_unpressed (s : State) (now : Nat)
    (h : accepted s true now = true) (hw : s.buttonWasPressed = false) :
    handlePhysicalButton s true now = { s with buttonState := true } := by
  simp only [accepted, Bool.and_eq_true, decide_eq_true_eq] at h
  obtain ⟨hl, hd⟩ := debounced_stable s true now h.1
  have hb : s.buttonState = false := by
    cases hbs : s.buttonState <;> simp_all
  unfold handlePhysicalButton
  simp only [hl, bne_self_eq_false, Bool.false_eq_true, if_false, hd, if_true, hb, hw]
  cases s; simp_all

/-- The effect of an accepted release that follows an accepted press. -/
theorem handlePhysicalButton_release (s : State) (now : Nat)
    (h : accepted s true now = true) (hw : s.buttonWasPressed = true) :
    handlePhysicalButton s true now
      = if s.alarmRinging then
          stopAlarmSound { s with buttonState := true, buttonWasPressed := false }
        else if subUL (millis now) s.buttonPressTime < 1000 then
          { s with
            buttonState := true
            buttonWasPressed := false
            displayMode := Int.tmod (s.displayMode + 1) 3
            autoModeSwitch := false
            buzzerPin := false
            forceUpdate := true }
        else if s.displayMode = 1 then
          { s with
            buttonState := true
            buttonWasPressed := false
            alarmMuted := !s.alarmMuted
            buzzerPin := false
            forceUpdate := true }
        else { s with buttonState := true, buttonWasPressed := false, forceUpdate := true } := by
  simp only [accepted, Bool.and_eq_true, decide_eq_true_eq] at h
  obtain ⟨hl, hd⟩ := debounced_stable s true now h.1
  have hb : s.buttonState = false := by
    cases hbs : s.buttonState <;> simp_all
  unfold handlePhysicalButton
  simp only [hl, bne_self_eq_false, Bool.false_eq_true, if_false, hd, if_true, hb, hw]
  by_cases hr : s.alarmRinging = true
  · simp [hr, stopAlarmSound, hl]
  · by_cases hp : subUL (millis now) s.buttonPressTime < 1000
    · simp [hr, hp, hl]
    · by_cases hm : s.displayMode = 1
      · simp [hr, hp, hm, hl]
      · simp [hr, hp, hm, hl]

theorem Inv_handlePhysicalButton (s : State) (r : Bool) (now : Nat) (h : Inv s) :
    Inv (handlePhysicalButton s r now) := by
  obtain ⟨hb, h0, h2⟩ := h
  by_cases hd : subUL (millis now)
      (if r != s.lastButtonState then millis now else s.lastDebounceTime) > DEBOUNCE_DELAY
  · by_cases hsame : s.buttonState = r
    · rw [handlePhysicalButton_same s r now hd hsame]; exact ⟨hb, h0, h2⟩
    · have hacc : accepted s r now = true := by
        simp only [accepted, Bool.and_eq_true, decide_eq_true_eq]
        refine ⟨hd, ?_⟩
        cases r <;> cases hbs : s.buttonState <;> simp_all
      cases r with
      | false =>
        rw [handlePhysicalButton_press s now hacc]
        exact ⟨fun _ => rfl, h0, h2⟩
      | true =>
        cases hw : s.buttonWasPressed with
        | false =>
          rw [handlePhysicalButton_release_unpressed s now hacc hw]
          exact ⟨fun hc => absurd hc (by simp), h0, h2⟩
        | true =>
          rw [handlePhysicalButton_release s now hacc hw]
          have ht := tmod_succ_three s.displayMode h0
          split_ifs
          · exact ⟨fun hc => absurd hc (by simp [stopAlarmSound]), h0, h2⟩
          · refine ⟨fun hc => absurd hc (by simp), ?_, ?_⟩
            · show 0 ≤ Int.tmod (s.displayMode + 1) 3
              rw [ht]; omega
            · show Int.tmod (s.displayMode + 1) 3 ≤ 2
              rw [ht]; omega
          · exact ⟨fun hc => absurd hc (by simp), h0, h2⟩
          · exact ⟨fun hc => absurd hc (by simp), h0, h2⟩
  · rw [handlePhysicalButton_quiet s r now hd]; exact ⟨hb, h0, h2⟩

/-! ## Frame conditions -/

theorem sameControls_checkAlarm (s : State) (t : Time) (now : Nat) :
    sameControls s (checkAlarm s t now) := by
  simp only [sameControls, checkAlarm, stopAlarmSound, playAlarmSound,
    apply_ite State.buttonState, apply_ite State.buttonWasPressed,
    apply_ite State.displayMode, apply_ite State.autoModeSwitch, ite_self, and_self]

theorem sameControls_stopAlarm (s : State) (v : Int) :
    sameControls s (BLYNK_WRITE_V_STOP_ALARM s v) := by
  simp only [sameControls, BLYNK_WRITE_V_STOP_ALARM, stopAlarmSound,
    apply_ite State.buttonState, apply_ite State.buttonWasPressed,
    apply_ite State.displayMode, apply_ite State.autoModeSwitch, ite_self, and_self]

theorem sameControls_alarmHour (s : State) (v : Int) :
    sameControls s (BLYNK_WRITE_V_ALARM_HOUR s v) := by
  simp [sameControls, BLYNK_WRITE_V_ALARM_HOUR, saveAlarm]

theorem sameControls_alarmMin (s : State) (v : Int) :
    sameControls s (BLYNK_WRITE_V_ALARM_MIN s v) := by
  simp [sameControls, BLYNK_WRITE_V_ALARM_MIN, saveAlarm]

theorem sameControls_alarmEn (s : State) (v : Int) :
    sameControls s (BLYNK_WRITE_V_ALARM_EN s v) := by
  simp [sameControls, BLYNK_WRITE_V_ALARM_EN, saveAlarm]

theorem sameControls_checkWiFiStatus (s : State) (c : Bool) (now : Nat) :
    sameControls s (checkWiFiStatus s c now) := by
  simp only [sameControls, checkWiFiStatus,
    apply_ite State.buttonState, apply_ite State.buttonWasPressed,
    apply_ite State.displayMode, apply_ite State.autoModeSwitch, ite_self, and_self]

theorem sameControls_hrDangerBranch (s : State) (now : Nat) :
    sameControls s (hrDangerBranch s now).1 := by
  simp only [sameControls, hrDangerBranch, apply_ite Prod.fst,
    apply_ite State.buttonState, apply_ite State.buttonWasPressed,
    apply_ite State.displayMode, apply_ite State.autoModeSwitch, ite_self, and_self]

theorem sameControls_hrLeaveBranch (r : State × Nat) :
    sameControls r.1 (hrLeaveBranch r).1 := by
  simp only [sameControls, hrLeaveBranch, apply_ite Prod.fst,
    apply_ite State.buttonState, apply_ite State.buttonWasPressed,
    apply_ite State.displayMode, apply_ite State.autoModeSwitch, ite_self, and_self]

theorem sameControls_tempWarning (r : State × Nat) (th : Bool) :
    sameControls r.1 (tempWarning r th) := by
  simp only [sameControls, tempWarning,
    apply_ite State.buttonState, apply_ite State.buttonWasPressed,
    apply_ite State.displayMode, apply_ite State.autoModeSwitch, ite_self, and_self]

theorem sameControls_refl (s : State) : sameControls s s := ⟨rfl, rfl, rfl, rfl⟩

theorem sameControls_trans {a b c : State} (h1 : sameControls a b) (h2 : sameControls b c) :
    sameControls a c :=
  ⟨h2.1.trans h1.1, h2.2.1.trans h1.2.1, h2.2.2.1.trans h1.2.2.1, h2.2.2.2.trans h1.2.2.2⟩

theorem sameControls_checkHealthWarnings (s : State) (now : Nat) (f : Bool) (hr : Int)
    (th : Bool) : sameControls s (checkHealthWarnings s now f hr th) := by
  unfold checkHealthWarnings
  refine sameControls_trans ?_ (sameControls_tempWarning _ th)
  by_cases hd : currentlyInDanger f hr = true
  · simp only [hd, if_true, Bool.not_true, Bool.false_and, Bool.false_eq_true, if_false]
    exact sameControls_hrDangerBranch s now
  · simp only [hd, Bool.false_eq_true, if_false]
    split_ifs
    · exact sameControls_hrLeaveBranch (s, now)
    · exact sameControls_refl s

theorem Inv_of_sameControls {s s' : State} (h : sameControls s s') (hi : Inv s) : Inv s' := by
  obtain ⟨h1, h2, h3, _⟩ := h
  unfold Inv
  rw [h1, h2, h3]; exact hi

theorem updateDisplay_controls (s : State) (now : Nat) :
    (updateDisplay s now).buttonState = s.buttonState
    ∧ (updateDisplay s now).buttonWasPressed = s.buttonWasPressed
    ∧ (updateDisplay s now).autoModeSwitch = s.autoModeSwitch
    ∧ (updateDisplay s now).displayMode
        = if s.autoModeSwitch
            && decide (subUL (millis now) s.lastModeSwitch ≥ MODE_INTERVAL) then
            Int.tmod (s.displayMode + 1) 3
          else s.displayMode := by
  simp only [updateDisplay, apply_ite State.buttonState, apply_ite State.buttonWasPressed,
    apply_ite State.displayMode, apply_ite State.autoModeSwitch, ite_self, and_self, true_and]

theorem selectMode_controls (s : State) (v : Int) :
    (BLYNK_WRITE_V_SELECT_MODE s v).buttonState = s.buttonState
    ∧ (BLYNK_WRITE_V_SELECT_MODE s v).buttonWasPressed = s.buttonWasPressed
    ∧ (BLYNK_WRITE_V_SELECT_MODE s v).autoModeSwitch
        = (if v ≥ 0 ∧ v ≤ 2 then false else s.autoModeSwitch)
    ∧ (BLYNK_WRITE_V_SELECT_MODE s v).displayMode
        = if v ≥ 0 ∧ v ≤ 2 then v else s.displayMode := by
  simp only [BLYNK_WRITE_V_SELECT_MODE, apply_ite State.buttonState,
    apply_ite State.buttonWasPressed, apply_ite State.displayMode,
    apply_ite State.autoModeSwitch, ite_self, and_self, true_and, and_true]
  by_cases h : s.autoModeSwitch = true <;> simp [h]

theorem nextMode_controls (s : State) (v : Int) :
    (BLYNK_WRITE_V_NEXT_MODE s v).buttonState = s.buttonState
    ∧ (BLYNK_WRITE_V_NEXT_MODE s v).buttonWasPressed = s.buttonWasPressed
    ∧ (BLYNK_WRITE_V_NEXT_MODE s v).autoModeSwitch
        = (if v = 1 then false else s.autoModeSwitch)
    ∧ (BLYNK_WRITE_V_NEXT_MODE s v).displayMode
        = if v = 1 then Int.tmod (s.displayMode + 1) 3 else s.displayMode := by
  simp only [BLYNK_WRITE_V_NEXT_MODE, apply_ite State.buttonState,
    apply_ite State.buttonWasPressed, apply_ite State.displayMode,
    apply_ite State.autoModeSwitch, ite_self, and_self, true_and, and_true]
  by_cases h : s.autoModeSwitch = true <;> simp [h]

theorem autoMode_controls (s : State) (v : Int) (now : Nat) :
    (BLYNK_WRITE_V_AUTO_MODE s v now).buttonState = s.buttonState
    ∧ (BLYNK_WRITE_V_AUTO_MODE s v now).buttonWasPressed = s.buttonWasPressed
    ∧ (BLYNK_WRITE_V_AUTO_MODE s v now).autoModeSwitch = decide (v ≠ 0)
    ∧ (BLYNK_WRITE_V_AUTO_MODE s v now).displayMode = s.displayMode := by
  simp only [BLYNK_WRITE_V_AUTO_MODE, apply_ite State.buttonState,
    apply_ite State.buttonWasPressed, apply_ite State.displayMode,
    apply_ite State.autoModeSwitch, ite_self, and_self, true_and, and_true]

theorem sameControls_apply (s : State) (op : Op) :
    sameControls s (op.apply s)
    ∨ (∃ r now, op = .button r now) ∨ (∃ v, op = .selectMode v) ∨ (∃ v, op = .nextMode v)
    ∨ (∃ v now, op = .autoMode v now) ∨ (∃ now, op = .display now) := by
  cases op with
  | alarmHour v => exact Or.inl (sameControls_alarmHour s v)
  | alarmMin v => exact Or.inl (sameControls_alarmMin s v)
  | alarmEn v => exact Or.inl (sameControls_alarmEn s v)
  | stopAlarm v => exact Or.inl (sameControls_stopAlarm s v)
  | autoMode v now => exact Or.inr (Or.inr (Or.inr (Or.inr (Or.inl ⟨v, now, rfl⟩))))
  | selectMode v => exact Or.inr (Or.inr (Or.inl ⟨v, rfl⟩))
  | nextMode v => exact Or.inr (Or.inr (Or.inr (Or.inl ⟨v, rfl⟩)))
  | wifi c now => exact Or.inl (sameControls_checkWiFiStatus s c now)
  | alarmTick t now => exact Or.inl (sameControls_checkAlarm s t now)
  | healthTick now f hr th => exact Or.inl (sameControls_checkHealthWarnings s now f hr th)
  | button r now => exact Or.inr (Or.inl ⟨r, now, rfl⟩)
  | display now => exact Or.inr (Or.inr (Or.inr (Or.inr (Or.inr ⟨now, rfl⟩))))

theorem Inv_apply (s : State) (op : Op) (h : Inv s) : Inv (op.apply s) := by
  have ht := tmod_succ_three s.displayMode h.2.1
  rcases sameControls_apply s op with hs | ⟨r, now, rfl⟩ | ⟨v, rfl⟩ | ⟨v, rfl⟩ | ⟨v, now, rfl⟩
    | ⟨now, rfl⟩
  · exact Inv_of_sameControls hs h
  · exact Inv_handlePhysicalButton s r now h
  · obtain ⟨h1, h2, _, h4⟩ := selectMode_controls s v
    obtain ⟨hb, h0, hm⟩ := h
    unfold Inv; simp only [Op.apply]
    rw [h1, h2, h4]
    refine ⟨hb, ?_, ?_⟩ <;> split_ifs <;> omega
  · obtain ⟨h1, h2, _, h4⟩ := nextMode_controls s v
    obtain ⟨hb, h0, hm⟩ := h
    unfold Inv; simp only [Op.apply]
    rw [h1, h2, h4, ht]
    refine ⟨hb, ?_, ?_⟩ <;> split_ifs <;> omega
  · obtain ⟨h1, h2, _, h4⟩ := autoMode_controls s v now
    obtain ⟨hb, h0, hm⟩ := h
    unfold Inv; simp only [Op.apply]
    rw [h1, h2, h4]
    exact ⟨hb, h0, hm⟩
  · obtain ⟨h1, h2, _, h4⟩ := updateDisplay_controls s now
    obtain ⟨hb, h0, hm⟩ := h
    unfold Inv; simp only [Op.apply]
    rw [h1, h2, h4, ht]
    refine ⟨hb, ?_, ?_⟩ <;> split_ifs <;> omega

theorem Inv_runOps (ops : List Op) : ∀ s : State, Inv s → Inv (runOps s ops) := by
  induction ops with
  | nil => intro s h; exact h
  | cons op ops ih => intro s h; exact ih _ (Inv_apply s op h)

theorem Inv_of_Reachable {s : State} (h : Reachable s) : Inv s := by
  obtain ⟨e0, e1, e2, w, ops, rfl⟩ := h
  exact Inv_runOps ops _ (Inv_setup e0 e1 e2 w)

/-! ## Button claims -/

theorem accepted_release_was_pressed {s : State} {now : Nat} (hreach : Reachable s)
    (hacc : accepted s true now = true) : s.buttonWasPressed = true := by
  apply (Inv_of_Reachable hreach).1
  simp only [accepted, Bool.and_eq_true, decide_eq_true_eq] at hacc
  cases hbs : s.buttonState <;> simp_all

/-- C3: in every reachable state with the alarm ringing, an accepted
(debounced) button release stops the ring, whatever the press duration and
the display mode, and leaves `displayMode`, `autoModeSwitch` and `alarmMuted`
unchanged. -/
theorem button_release_acknowledges_alarm (s : State) (now : Nat)
    (hreach : Reachable s) (hring : s.alarmRinging = true)
    (hacc : accepted s true now = true) :
    (handlePhysicalButton s true now).alarmRinging = false
    ∧ (handlePhysicalButton s true now).displayMode = s.displayMode
    ∧ (handlePhysicalButton s true now).autoModeSwitch = s.autoModeSwitch
    ∧ (handlePhysicalButton s true now).alarmMuted = s.alarmMuted := by
  rw [handlePhysicalButton_release s now hacc (accepted_release_was_pressed hreach hacc)]
  simp [hring, stopAlarmSound]

theorem button_release_acknowledges_alarm_witness :
    (handlePhysicalButton ringingPressed true 500).alarmRinging = false
    ∧ (handlePhysicalButton ringingPressed true 500).displayMode = ringingPressed.displayMode
    ∧ (handlePhysicalButton ringingPressed true 500).autoModeSwitch
        = ringingPressed.autoModeSwitch
    ∧ (handlePhysicalButton ringingPressed true 500).alarmMuted = ringingPressed.alarmMuted :=
  button_release_acknowledges_alarm ringingPressed 500 ⟨7, 30, 1, false, _, rfl⟩
    (by decide) (by decide)

/-- C5: in every reachable state with the alarm not ringing, an accepted
button release with `pressDuration = millis() - buttonPressTime` is a short
press when `pressDuration < 1000` (display mode advanced modulo 3, auto
rotation off, mute unchanged) and a long press when `pressDuration >= 1000`
(display mode and auto rotation unchanged, mute toggled exactly when the
display mode is 1). -/
theorem button_release_short_or_long (s : State) (now : Nat)
    (hreach : Reachable s) (hidle : s.alarmRinging = false)
    (hacc : accepted s true now = true) :
    (subUL (millis now) s.buttonPressTime < 1000 →
      (handlePhysicalButton s true now).displayMode = (s.displayMode + 1) % 3
      ∧ (handlePhysicalButton s true now).autoModeSwitch = false
      ∧ (handlePhysicalButton s true now).alarmMuted = s.alarmMuted)
    ∧ (subUL (millis now) s.buttonPressTime ≥ 1000 →
      (handlePhysicalButton s true now).displayMode = s.displayMode
      ∧ (handlePhysicalButton s true now).autoModeSwitch = s.autoModeSwitch
      ∧ (handlePhysicalButton s true now).alarmMuted
          = if s.displayMode = 1 then !s.alarmMuted else s.alarmMuted) := by
  rw [handlePhysicalButton_release s now hacc (accepted_release_was_pressed hreach hacc)]
  have ht := tmod_succ_three s.displayMode (Inv_of_Reachable hreach).2.1
  constructor
  · intro hp
    simp [hidle, hp, ht]
  · intro hp
    have hp' : ¬ subUL (millis now) s.buttonPressTime < 1000 := by omega
    by_cases hm : s.displayMode = 1 <;> simp [hidle, hp', hm]

theorem button_release_short_or_long_witness :
    ((subUL (millis 1199) idlePressed.buttonPressTime = 999
      ∧ (handlePhysicalButton idlePressed true 1199).displayMode = 2
      ∧ (handlePhysicalButton idlePressed true 1199).autoModeSwitch = false
      ∧ (handlePhysicalButton idlePressed true 1199).alarmMuted = false)
    ∧ (subUL (millis 1200) idlePressed.buttonPressTime = 1000
      ∧ (handlePhysicalButton idlePressed true 1200).displayMode = 1
      ∧ (handlePhysicalButton idlePressed true 1200).autoModeSwitch = false
      ∧ (handlePhysicalButton idlePressed true 1200).alarmMuted = true)) :=
  ⟨⟨by decide,
      (button_release_short_or_long idlePressed 1199 ⟨7, 30, 0, false, _, rfl⟩
        (by decide) (by decide)).1 (by decide)⟩,
    ⟨by decide,
      (button_release_short_or_long idlePressed 1200 ⟨7, 30, 0, false, _, rfl⟩
        (by decide) (by decide)).2 (by decide)⟩⟩

theorem withinDebounce_take (samples : List (Bool × Nat)) :
    ∀ (last : Bool) (lastT k : Nat), withinDebounce last lastT samples = true →
      withinDebounce last lastT (samples.take k) = true := by
  induction samples with
  | nil => intro last lastT k h; simpa using h
  | cons x rest ih =>
    intro last lastT k h
    cases k with
    | zero => rfl
    | succ k =>
      simp only [withinDebounce, Bool.and_eq_true, List.take_succ_cons] at h ⊢
      exact ⟨h.1, ih _ _ k h.2⟩

/-- A run of samples inside the debounce window changes nothing but the raw
bookkeeping `lastButtonState` and `lastDebounceTime`. -/
theorem bounce_only_bookkeeping (samples : List (Bool × Nat)) :
    ∀ s : State, withinDebounce s.lastButtonState s.lastDebounceTime samples = true →
      ∃ (lb : Bool) (ld : Nat),
        runOps s (buttonSamples samples) = { s with lastButtonState := lb, lastDebounceTime := ld } := by
  induction samples with
  | nil => intro s _; exact ⟨s.lastButtonState, s.lastDebounceTime, rfl⟩
  | cons x rest ih =>
    intro s h
    simp only [withinDebounce, Bool.and_eq_true, decide_eq_true_eq] at h
    have hq : ¬ subUL (millis x.2)
        (if x.1 != s.lastButtonState then millis x.2 else s.lastDebounceTime) > DEBOUNCE_DELAY := by
      have := h.1
      simp only [DEBOUNCE_DELAY]; omega
    have hstep := handlePhysicalButton_quiet s x.1 x.2 hq
    have hrun : runOps s (buttonSamples (x :: rest))
        = runOps (handlePhysicalButton s x.1 x.2) (buttonSamples rest) := rfl
    rw [hrun, hstep]
    obtain ⟨lb, ld, hres⟩ := ih
      { s with
        lastDebounceTime := if x.1 != s.lastButtonState then millis x.2 else s.lastDebounceTime
        lastButtonState := x.1 } h.2
    exact ⟨lb, ld, by rw [hres]⟩

/-- C4: over a sequence of samples each taken less than 50 ms after the most
recent observed raw transition, the debounced `buttonState` never changes and
no press event is produced: after every sample `buttonState`, `displayMode`,
`autoModeSwitch`, `alarmMuted` and `alarmRinging` have their initial values
(only `lastButtonState` and `lastDebounceTime` are written). -/
theorem bounce_produces_no_event (s : State) (samples : List (Bool × Nat)) (k : Nat)
    (h : withinDebounce s.lastButtonState s.lastDebounceTime samples = true) :
    (runOps s (buttonSamples (samples.take k))).buttonState = s.buttonState
    ∧ (runOps s (buttonSamples (samples.take k))).displayMode = s.displayMode
    ∧ (runOps s (buttonSamples (samples.take k))).autoModeSwitch = s.autoModeSwitch
    ∧ (runOps s (buttonSamples (samples.take k))).alarmMuted = s.alarmMuted
    ∧ (runOps s (buttonSamples (samples.take k))).alarmRinging = s.alarmRinging
    ∧ ∃ (lb : Bool) (ld : Nat),
        runOps s (buttonSamples (samples.take k))
          = { s with lastButtonState := lb, lastDebounceTime := ld } := by
  obtain ⟨lb, ld, hres⟩ :=
    bounce_only_bookkeeping (samples.take k) s (withinDebounce_take samples _ _ k h)
  rw [hres]
  exact ⟨rfl, rfl, rfl, rfl, rfl, lb, ld, rfl⟩

theorem bounce_produces_no_event_witness :
    (runOps (setup 7 30 1 false) (buttonSamples
        ([(false, 100), (true, 130), (false, 160), (false, 209), (true, 240)].take 5))).buttonState
      = (setup 7 30 1 false).buttonState
    ∧ (runOps (setup 7 30 1 false) (buttonSamples
        ([(false, 100), (true, 130), (false, 160), (false, 209), (true, 240)].take 5))).displayMode
      = (setup 7 30 1 false).displayMode
    ∧ (runOps (setup 7 30 1 false) (buttonSamples
        ([(false, 100), (true, 130), (false, 160), (false, 209), (true, 240)].take 5))).autoModeSwitch
      = (setup 7 30 1 false).autoModeSwitch
    ∧ (runOps (setup 7 30 1 false) (buttonSamples
        ([(false, 100), (true, 130), (false, 160), (false, 209), (true, 240)].take 5))).alarmMuted
      = (setup 7 30 1 false).alarmMuted
    ∧ (runOps (setup 7 30 1 false) (buttonSamples
        ([(false, 100), (true, 130), (false, 160), (false, 209), (true, 240)].take 5))).alarmRinging
      = (setup 7 30 1 false).alarmRinging
    ∧ ∃ (lb : Bool) (ld : Nat),
        runOps (setup 7 30 1 false) (buttonSamples
            ([(false, 100), (true, 130), (false, 160), (false, 209), (true, 240)].take 5))
          = { setup 7 30 1 false with lastButtonState := lb, lastDebounceTime := ld } :=
  bounce_produces_no_event (setup 7 30 1 false)
    [(false, 100), (true, 130), (false, 160), (false, 209), (true, 240)] 5 (by decide)

/-! ## Health warnings -/

theorem hrDangerBranch_fields (s : State) (now : Nat) :
    (hrDangerBranch s now).1.hrInDangerZone = true
    ∧ (hrDangerBranch s now).1.hrDangerStartTime
        = (if s.hrInDangerZone then s.hrDangerStartTime else millis now)
    ∧ (hrDangerBranch s now).1.hrWarningActive
        = (s.hrWarningActive
            || decide (subUL (millis now)
                (if s.hrInDangerZone then s.hrDangerStartTime else millis now)
                  ≥ HR_DANGER_DURATION)) := by
  simp only [hrDangerBranch, apply_ite Prod.fst, apply_ite State.hrInDangerZone,
    apply_ite State.hrDangerStartTime, apply_ite State.hrWarningActive, ite_self]
  cases hz : s.hrInDangerZone <;> cases hw : s.hrWarningActive <;> simp

theorem hrLeaveBranch_fields (r : State × Nat) :
    (hrLeaveBranch r).1.hrInDangerZone = false
    ∧ (hrLeaveBranch r).1.hrDangerStartTime = r.1.hrDangerStartTime
    ∧ (hrLeaveBranch r).1.hrWarningActive = false := by
  simp only [hrLeaveBranch, apply_ite Prod.fst, apply_ite State.hrInDangerZone,
    apply_ite State.hrDangerStartTime, apply_ite State.hrWarningActive, ite_self]
  cases hw : r.1.hrWarningActive <;> simp

theorem tempWarning_fields (r : State × Nat) (th : Bool) :
    (tempWarning r th).hrInDangerZone = r.1.hrInDangerZone
    ∧ (tempWarning r th).hrDangerStartTime = r.1.hrDangerStartTime
    ∧ (tempWarning r th).hrWarningActive = r.1.hrWarningActive := by
  simp only [tempWarning, apply_ite State.hrInDangerZone,
    apply_ite State.hrDangerStartTime, apply_ite State.hrWarningActive, ite_self, and_self]

/-- The heart-rate fields after one call of `checkHealthWarnings()`, as a
function of the inputs and of the same fields before the call. -/
theorem checkHealthWarnings_fields (s : State) (now : Nat) (f : Bool) (hr : Int) (th : Bool) :
    (checkHealthWarnings s now f hr th).hrInDangerZone = currentlyInDanger f hr
    ∧ (checkHealthWarnings s now f hr th).hrDangerStartTime
        = (if currentlyInDanger f hr && !s.hrInDangerZone then millis now
           else s.hrDangerStartTime)
    ∧ (checkHealthWarnings s now f hr th).hrWarningActive
        = (if currentlyInDanger f hr then
            s.hrWarningActive
              || decide (subUL (millis now)
                  (if s.hrInDangerZone then s.hrDangerStartTime else millis now)
                    ≥ HR_DANGER_DURATION)
           else if s.hrInDangerZone then false else s.hrWarningActive) := by
  unfold checkHealthWarnings
  obtain ⟨t1, t2, t3⟩ := tempWarning_fields
    (if (!currentlyInDanger f hr && (if currentlyInDanger f hr = true then hrDangerBranch s now
          else (s, now)).1.hrInDangerZone) = true then
        hrLeaveBranch (if currentlyInDanger f hr = true then hrDangerBranch s now else (s, now))
      else (if currentlyInDanger f hr = true then hrDangerBranch s now else (s, now))) th
  simp only [] at t1 t2 t3 ⊢
  rw [t1, t2, t3]
  obtain ⟨d1, d2, d3⟩ := hrDangerBranch_fields s now
  obtain ⟨l1, l2, l3⟩ := hrLeaveBranch_fields (s, now)
  cases hd : currentlyInDanger f hr
  · cases hz : s.hrInDangerZone
    · simp [hz]
    · simp [hz, l1, l2, l3]
  · cases hz : s.hrInDangerZone <;> simp [hz, d1, d2, d3]

theorem currentlyInDanger_iff (f : Bool) (r : Int) :
    currentlyInDanger f r = true ↔ f = true ∧ 0 < r ∧ (r ≤ 60 ∨ 100 ≤ r) := by
  unfold currentlyInDanger HR_HIGH HR_LOW
  cases f
  · simp
  · by_cases h0 : 0 < r
    · by_cases hb : r ≥ 100 ∨ r ≤ 60
      · have hb' : r ≤ 60 ∨ 100 ≤ r := by omega
        simp [h0, hb, hb']
      · have hb' : ¬ (r ≤ 60 ∨ 100 ≤ r) := by omega
        simp [h0, hb, hb']
    · simp [h0]

/-- C7 (amended): with `fingerDetected` true, after one `checkHealthWarnings`
tick `hrInDangerZone` is true exactly when the reading `r` is positive and
`r <= 60` or `r >= 100`; both boundaries 60 and 100 count as danger, 61..99 do
not, and a reading `r <= 0` (no heart rate measured yet) never does. -/
theorem hrInDangerZone_iff_positive_band (s : State) (now : Nat) (r : Int) (th : Bool) :
    ((checkHealthWarnings s now true r th).hrInDangerZone = true
      ↔ 0 < r ∧ (r ≤ 60 ∨ 100 ≤ r))
    ∧ (checkHealthWarnings s now true 60 th).hrInDangerZone = true
    ∧ (checkHealthWarnings s now true 100 th).hrInDangerZone = true
    ∧ (checkHealthWarnings s now true 61 th).hrInDangerZone = false
    ∧ (checkHealthWarnings s now true 99 th).hrInDangerZone = false := by
  refine ⟨?_, ?_, ?_, ?_, ?_⟩
  · rw [(checkHealthWarnings_fields s now true r th).1, currentlyInDanger_iff]; simp
  · rw [(checkHealthWarnings_fields s now true 60 th).1]; decide
  · rw [(checkHealthWarnings_fields s now true 100 th).1]; decide
  · rw [(checkHealthWarnings_fields s now true 61 th).1]; decide
  · rw [(checkHealthWarnings_fields s now true 99 th).1]; decide

/-- C7 (as stated) fails: with the finger present and the heart rate 0, which
is `<= 60`, the tick leaves the danger zone instead of entering it. -/
theorem hrInDangerZone_false_at_zero :
    inZoneDemo.hrInDangerZone = true
    ∧ (checkHealthWarnings inZoneDemo 2000 true 0 false).hrInDangerZone = false
    ∧ (checkHealthWarnings (setup 7 0 0 false) 1000 true 0 false).hrInDangerZone = false
    ∧ ¬ ((checkHealthWarnings (setup 7 0 0 false) 1000 true 0 false).hrInDangerZone = true
          ↔ ((0 : Int) ≤ 60 ∨ (0 : Int) ≥ 100)) := by
  decide

/-- The heart-rate fields after a run of health ticks depend only on the
inputs and on the same fields at the start. -/
theorem health_fields_agree (ticks : List HealthTick) :
    ∀ s1 s2 : State, s1.hrInDangerZone = s2.hrInDangerZone →
      s1.hrDangerStartTime = s2.hrDangerStartTime →
      s1.hrWarningActive = s2.hrWarningActive →
      (runOps s1 (healthTicks ticks)).hrInDangerZone
          = (runOps s2 (healthTicks ticks)).hrInDangerZone
      ∧ (runOps s1 (healthTicks ticks)).hrDangerStartTime
          = (runOps s2 (healthTicks ticks)).hrDangerStartTime
      ∧ (runOps s1 (healthTicks ticks)).hrWarningActive
          = (runOps s2 (healthTicks ticks)).hrWarningActive := by
  induction ticks with
  | nil => intro s1 s2 h1 h2 h3; exact ⟨h1, h2, h3⟩
  | cons x rest ih =>
    intro s1 s2 h1 h2 h3
    obtain ⟨a1, a2, a3⟩ := checkHealthWarnings_fields s1 x.now x.fingerDetected x.heartRate x.tempHigh
    obtain ⟨b1, b2, b3⟩ := checkHealthWarnings_fields s2 x.now x.fingerDetected x.heartRate x.tempHigh
    apply ih (checkHealthWarnings s1 x.now x.fingerDetected x.heartRate x.tempHigh)
      (checkHealthWarnings s2 x.now x.fingerDetected x.heartRate x.tempHigh)
    · rw [a1, b1]
    · rw [a2, b2, h1, h2]
    · rw [a3, b3, h1, h2, h3]

/-- C8: two runs of `checkHealthWarnings` over the same inputs, from states
that differ only in `alarmMuted` and `lastHrWarningBeep`, have the same
`hrInDangerZone`, `hrDangerStartTime` and `hrWarningActive` after every tick:
muting never changes when the warning is raised or cleared. -/
theorem mute_does_not_change_warning_state (s : State) (muted : Bool) (beep : Nat)
    (ticks : List HealthTick) :
    (runOps { s with alarmMuted := muted, lastHrWarningBeep := beep }
        (healthTicks ticks)).hrInDangerZone
      = (runOps s (healthTicks ticks)).hrInDangerZone
    ∧ (runOps { s with alarmMuted := muted, lastHrWarningBeep := beep }
        (healthTicks ticks)).hrDangerStartTime
      = (runOps s (healthTicks ticks)).hrDangerStartTime
    ∧ (runOps { s with alarmMuted := muted, lastHrWarningBeep := beep }
        (healthTicks ticks)).hrWarningActive
      = (runOps s (healthTicks ticks)).hrWarningActive :=
  health_fields_agree ticks _ s rfl rfl rfl

theorem healthTick_fields (s : State) (x : HealthTick) :
    (x.op.apply s).hrInDangerZone = x.inDanger
    ∧ (x.op.apply s).hrDangerStartTime
        = (if x.inDanger && !s.hrInDangerZone then millis x.now else s.hrDangerStartTime)
    ∧ (x.op.apply s).hrWarningActive
        = (if x.inDanger then
            s.hrWarningActive
              || decide (subUL (millis x.now)
                  (if s.hrInDangerZone then s.hrDangerStartTime else millis x.now)
                    ≥ HR_DANGER_DURATION)
           else if s.hrInDangerZone then false else s.hrWarningActive) :=
  checkHealthWarnings_fields s x.now x.fingerDetected x.heartRate x.tempHigh

theorem runOps_healthTicks_snoc (s : State) (pre : List HealthTick) (x : HealthTick) :
    runOps s (healthTicks (pre ++ [x])) = x.op.apply (runOps s (healthTicks pre)) := by
  simp [healthTicks, runOps, List.foldl_append]

/-- While `hrInDangerZone` is set, every tick since the dwell started was in
the danger band. -/
theorem zone_trace (s0 : State) (pre : List HealthTick) :
    (runOps s0 (healthTicks pre)).hrInDangerZone = true →
      ZoneSince s0 pre (runOps s0 (healthTicks pre)) := by
  induction pre using List.reverseRecOn with
  | nil =>
    intro h
    exact Or.inr ⟨h, rfl, fun y hy => absurd hy (by simp)⟩
  | append_singleton init x ih =>
    intro h
    rw [runOps_healthTicks_snoc] at h ⊢
    obtain ⟨f1, f2, _⟩ := healthTick_fields (runOps s0 (healthTicks init)) x
    rw [f1] at h
    cases hz : (runOps s0 (healthTicks init)).hrInDangerZone with
    | false =>
      refine Or.inl ⟨init, x, [], rfl, ?_, ?_⟩
      · intro y hy
        simp only [List.mem_singleton] at hy
        rw [hy]; exact h
      · rw [f2, h, hz]; rfl
    | true =>
      have hstart : (x.op.apply (runOps s0 (healthTicks init))).hrDangerStartTime
          = (runOps s0 (healthTicks init)).hrDangerStartTime := by
        rw [f2, h, hz]; rfl
      rcases ih hz with ⟨before, entry, stay, hpre, hall, he⟩ | ⟨h0, he, hall⟩
      · refine Or.inl ⟨before, entry, stay ++ [x], ?_, ?_, ?_⟩
        · rw [hpre]; simp
        · intro y hy
          rcases List.mem_cons.1 hy with hy | hy
          · exact hall y (by rw [hy]; simp)
          · rcases List.mem_append.1 hy with hy | hy
            · exact hall y (List.mem_cons_of_mem _ hy)
            · simp only [List.mem_singleton] at hy
              rw [hy]; exact h
        · rw [hstart, he]
      · refine Or.inr ⟨h0, ?_, ?_⟩
        · rw [hstart, he]
        · intro y hy
          rcases List.mem_append.1 hy with hy | hy
          · exact hall y hy
          · simp only [List.mem_singleton] at hy
            rw [hy]; exact h

/-- A run of in-band ticks from a state that is in the danger zone since `e`. -/
theorem held_run (held : List HealthTick) :
    ∀ (S : State) (e : Nat), S.hrInDangerZone = true → S.hrDangerStartTime = e →
      (∀ y ∈ held, y.inDanger = true) →
      (runOps S (healthTicks held)).hrWarningActive = (S.hrWarningActive || dwellReached e held)
      ∧ warningsRaised S (healthTicks held)
          = (if !S.hrWarningActive && dwellReached e held then 1 else 0) := by
  induction held with
  | nil => intro S e _ _ _; simp [healthTicks, runOps, warningsRaised, dwellReached]
  | cons x rest ih =>
    intro S e hz he hall
    obtain ⟨f1, f2, f3⟩ := healthTick_fields S x
    have hx : x.inDanger = true := hall x (by simp)
    rw [hx, hz, he] at f3
    rw [hx, hz, he] at f2
    rw [hx] at f1
    simp only [Bool.not_true, Bool.and_false, Bool.false_eq_true, if_false, if_true] at f2 f3
    obtain ⟨i1, i2⟩ := ih (x.op.apply S) e f1 f2 (fun y hy => hall y (List.mem_cons_of_mem _ hy))
    have hrun : runOps S (healthTicks (x :: rest)) = runOps (x.op.apply S) (healthTicks rest) := rfl
    have hcount : warningsRaised S (healthTicks (x :: rest))
        = (if !S.hrWarningActive && (x.op.apply S).hrWarningActive then 1 else 0)
          + warningsRaised (x.op.apply S) (healthTicks rest) := rfl
    have hd : dwellReached e (x :: rest)
        = (decide (subUL (millis x.now) e ≥ HR_DANGER_DURATION) || dwellReached e rest) := by
      simp [dwellReached]
    rw [hrun, hcount, i1, i2, f3, hd]
    cases S.hrWarningActive <;> cases decide (subUL (millis x.now) e ≥ HR_DANGER_DURATION) <;>
      cases dwellReached e rest <;> simp

/-- A run in which every stay in the danger band is short raises nothing. -/
theorem short_run (xs : List HealthTick) :
    ∀ S : State, S.hrWarningActive = false →
      shortStays (if S.hrInDangerZone then some S.hrDangerStartTime else none) xs = true →
      warningsRaised S (healthTicks xs) = 0
      ∧ (runOps S (healthTicks xs)).hrWarningActive = false := by
  induction xs with
  | nil => intro S hw _; exact ⟨rfl, hw⟩
  | cons x rest ih =>
    intro S hw hs
    obtain ⟨f1, f2, f3⟩ := healthTick_fields S x
    have hrun : runOps S (healthTicks (x :: rest)) = runOps (x.op.apply S) (healthTicks rest) := rfl
    have hcount : warningsRaised S (healthTicks (x :: rest))
        = (if !S.hrWarningActive && (x.op.apply S).hrWarningActive then 1 else 0)
          + warningsRaised (x.op.apply S) (healthTicks rest) := rfl
    cases hx : x.inDanger with
    | false =>
      rw [hx] at f1 f2 f3
      simp only [shortStays, hx, Bool.false_eq_true, if_false] at hs
      have hw1 : (x.op.apply S).hrWarningActive = false := by
        rw [f3]; cases S.hrInDangerZone <;> simp [hw]
      obtain ⟨i1, i2⟩ := ih (x.op.apply S) hw1 (by rw [f1]; simpa using hs)
      rw [hrun, hcount, i1, hw1]
      exact ⟨by simp, i2⟩
    | true =>
      rw [hx] at f1 f2 f3
      simp only [shortStays, hx, if_true, Bool.and_eq_true, decide_eq_true_eq] at hs
      have hget : (if S.hrInDangerZone = true then some S.hrDangerStartTime else none).getD (millis x.now)
          = (if S.hrInDangerZone then S.hrDangerStartTime else millis x.now) := by
        cases S.hrInDangerZone <;> simp
      rw [hget] at hs
      have hstart : (x.op.apply S).hrDangerStartTime
          = (if S.hrInDangerZone then S.hrDangerStartTime else millis x.now) := by
        rw [f2]; cases S.hrInDangerZone <;> simp
      have hw1 : (x.op.apply S).hrWarningActive = false := by
        rw [f3, hw]
        simp only [if_true, Bool.false_or, decide_eq_false_iff_not]
        have := hs.1
        omega
      obtain ⟨i1, i2⟩ := ih (x.op.apply S) hw1 (by rw [f1, hstart]; simpa using hs.2)
      rw [hrun, hcount, i1, hw1]
      exact ⟨by simp, i2⟩

/-- C6: over a run of `checkHealthWarnings` ticks that starts with no warning
active, `hrWarningActive` goes from false to true only on a tick in the danger
band with `millis() - hrDangerStartTime >= 10000` and with every tick since the
dwell started in the band.  While the reading is held in the band (110 BPM
with the finger present is in the band) the warning is raised on the first
tick with a dwell of at least 10000 ms, on no earlier tick, and exactly once.
A run in which every stay in the band is shorter than 10000 ms (the dwell
restarts on each entry) never raises the warning. -/
theorem hr_warning_needs_ten_seconds_in_band (s : State) (pre : List HealthTick)
    (x x0 : HealthTick) (held osc : List HealthTick)
    (hw : s.hrWarningActive = false) :
    ((runOps s (healthTicks pre)).hrWarningActive = false →
      (runOps s (healthTicks (pre ++ [x]))).hrWarningActive = true →
        x.inDanger = true
        ∧ subUL (millis x.now) (runOps s (healthTicks pre)).hrDangerStartTime ≥ 10000
        ∧ ZoneSince s pre (runOps s (healthTicks pre)))
    ∧ ((hrTick x0.now 110).inDanger = true
      ∧ ((∀ y ∈ x0 :: held, y.inDanger = true) →
        (runOps s (healthTicks (x0 :: held))).hrWarningActive
          = dwellReached (if s.hrInDangerZone then s.hrDangerStartTime else millis x0.now)
              (x0 :: held)
        ∧ warningsRaised s (healthTicks (x0 :: held))
          = (if dwellReached (if s.hrInDangerZone then s.hrDangerStartTime else millis x0.now)
                (x0 :: held) then 1 else 0)))
    ∧ (shortStays (if s.hrInDangerZone then some s.hrDangerStartTime else none) osc = true →
        warningsRaised s (healthTicks osc) = 0
        ∧ (runOps s (healthTicks osc)).hrWarningActive = false) := by
  refine ⟨?_, ⟨(currentlyInDanger_iff true 110).2 ⟨rfl, by decide, Or.inr (by decide)⟩, ?_⟩,
    short_run osc s hw⟩
  · intro hoff hon
    rw [runOps_healthTicks_snoc] at hon
    obtain ⟨_, _, f3⟩ := healthTick_fields (runOps s (healthTicks pre)) x
    rw [f3, hoff] at hon
    cases hx : x.inDanger with
    | false =>
      rw [hx] at hon
      cases hz : (runOps s (healthTicks pre)).hrInDangerZone <;> simp [hz] at hon
    | true =>
      rw [hx] at hon
      cases hz : (runOps s (healthTicks pre)).hrInDangerZone with
      | false =>
        rw [hz] at hon
        simp only [if_true, Bool.false_or, Bool.false_eq_true, if_false, subUL_millis_self,
          HR_DANGER_DURATION, decide_eq_true_eq] at hon
        omega
      | true =>
        rw [hz] at hon
        simp only [if_true, Bool.false_or, HR_DANGER_DURATION, decide_eq_true_eq] at hon
        exact ⟨rfl, hon, zone_trace s pre hz⟩
  · intro hall
    obtain ⟨f1, f2, f3⟩ := healthTick_fields s x0
    have hx : x0.inDanger = true := hall x0 (by simp)
    rw [hx] at f1
    have hstart : (x0.op.apply s).hrDangerStartTime
        = (if s.hrInDangerZone then s.hrDangerStartTime else millis x0.now) := by
      rw [f2, hx]; cases s.hrInDangerZone <;> simp
    have hact : (x0.op.apply s).hrWarningActive
        = decide (subUL (millis x0.now)
            (if s.hrInDangerZone then s.hrDangerStartTime else millis x0.now)
              ≥ HR_DANGER_DURATION) := by
      rw [f3, hx, hw]; simp
    obtain ⟨i1, i2⟩ := held_run held (x0.op.apply s) _ f1 hstart
      (fun y hy => hall y (List.mem_cons_of_mem _ hy))
    have hrun : runOps s (healthTicks (x0 :: held)) = runOps (x0.op.apply s) (healthTicks held) := rfl
    have hcount : warningsRaised s (healthTicks (x0 :: held))
        = (if !s.hrWarningActive && (x0.op.apply s).hrWarningActive then 1 else 0)
          + warningsRaised (x0.op.apply s) (healthTicks held) := rfl
    have hd : dwellReached (if s.hrInDangerZone then s.hrDangerStartTime else millis x0.now)
          (x0 :: held)
        = (decide (subUL (millis x0.now)
              (if s.hrInDangerZone then s.hrDangerStartTime else millis x0.now)
                ≥ HR_DANGER_DURATION)
            || dwellReached (if s.hrInDangerZone then s.hrDangerStartTime else millis x0.now)
                held) := by
      simp [dwellReached]
    rw [hrun, hcount, i1, i2, hact, hw, hd]
    cases decide (subUL (millis x0.now)
        (if s.hrInDangerZone then s.hrDangerStartTime else millis x0.now) ≥ HR_DANGER_DURATION) <;>
      cases dwellReached (if s.hrInDangerZone then s.hrDangerStartTime else millis x0.now) held <;>
        simp

theorem hr_warning_needs_ten_seconds_in_band_witness :
    ((hrTick 10000 110).inDanger = true
      ∧ subUL (millis 10000)
          (runOps (setup 7 0 0 false)
            (healthTicks [hrTick 0 110, hrTick 5000 110, hrTick 9900 110])).hrDangerStartTime
          ≥ 10000
      ∧ ZoneSince (setup 7 0 0 false) [hrTick 0 110, hrTick 5000 110, hrTick 9900 110]
          (runOps (setup 7 0 0 false)
            (healthTicks [hrTick 0 110, hrTick 5000 110, hrTick 9900 110])))
    ∧ ((runOps (setup 7 0 0 false)
          (healthTicks [hrTick 0 110, hrTick 5000 110, hrTick 9900 110])).hrWarningActive = false
      ∧ warningsRaised (setup 7 0 0 false)
          (healthTicks [hrTick 0 110, hrTick 5000 110, hrTick 9900 110]) = 0)
    ∧ ((runOps (setup 7 0 0 false)
          (healthTicks [hrTick 0 110, hrTick 5000 110, hrTick 9900 110, hrTick 10000 110,
            hrTick 15000 110, hrTick 20000 110])).hrWarningActive = true
      ∧ warningsRaised (setup 7 0 0 false)
          (healthTicks [hrTick 0 110, hrTick 5000 110, hrTick 9900 110, hrTick 10000 110,
            hrTick 15000 110, hrTick 20000 110]) = 1)
    ∧ (warningsRaised (setup 7 0 0 false)
          (healthTicks [hrTick 0 110, hrTick 2500 110, hrTick 5000 80, hrTick 7500 80,
            hrTick 10000 110, hrTick 12500 110, hrTick 15000 80, hrTick 20000 110,
            hrTick 25000 80]) = 0
      ∧ (runOps (setup 7 0 0 false)
          (healthTicks [hrTick 0 110, hrTick 2500 110, hrTick 5000 80, hrTick 7500 80,
            hrTick 10000 110, hrTick 12500 110, hrTick 15000 80, hrTick 20000 110,
            hrTick 25000 80])).hrWarningActive = false) :=
  ⟨(hr_warning_needs_ten_seconds_in_band (setup 7 0 0 false)
      [hrTick 0 110, hrTick 5000 110, hrTick 9900 110] (hrTick 10000 110) (hrTick 0 110) [] []
      (by decide)).1 (by decide) (by decide),
    (hr_warning_needs_ten_seconds_in_band (setup 7 0 0 false) [] (hrTick 0 110) (hrTick 0 110)
      [hrTick 5000 110, hrTick 9900 110] [] (by decide)).2.1.2 (by decide),
    (hr_warning_needs_ten_seconds_in_band (setup 7 0 0 false) [] (hrTick 0 110) (hrTick 0 110)
      [hrTick 5000 110, hrTick 9900 110, hrTick 10000 110, hrTick 15000 110, hrTick 20000 110] []
      (by decide)).2.1.2 (by decide),
    (hr_warning_needs_ten_seconds_in_band (setup 7 0 0 false) [] (hrTick 0 110) (hrTick 0 110) []
      [hrTick 0 110, hrTick 2500 110, hrTick 5000 80, hrTick 7500 80,
        hrTick 10000 110, hrTick 12500 110, hrTick 15000 80, hrTick 20000 110,
        hrTick 25000 80] (by decide)).2.2 (by decide)⟩

/-! ## Display mode -/

theorem handlePhysicalButton_autoOff (s : State) (r : Bool) (now : Nat)
    (h : s.autoModeSwitch = false) : (handlePhysicalButton s r now).autoModeSwitch = false := by
  simp only [handlePhysicalButton, stopAlarmSound, apply_ite State.autoModeSwitch, h, ite_self]

/-- Only the set-auto handler with a true value turns auto rotation on. -/
theorem autoOff_apply (s : State) (op : Op) (h : s.autoModeSwitch = false)
    (hop : op.isSetAutoTrue = false) : (op.apply s).autoModeSwitch = false := by
  rcases sameControls_apply s op with hs | ⟨r, now, rfl⟩ | ⟨v, rfl⟩ | ⟨v, rfl⟩ | ⟨v, now, rfl⟩
    | ⟨now, rfl⟩
  · rw [hs.2.2.2]; exact h
  · exact handlePhysicalButton_autoOff s r now h
  · show (BLYNK_WRITE_V_SELECT_MODE s v).autoModeSwitch = false
    rw [(selectMode_controls s v).2.2.1, h]; simp
  · show (BLYNK_WRITE_V_NEXT_MODE s v).autoModeSwitch = false
    rw [(nextMode_controls s v).2.2.1, h]; simp
  · show (BLYNK_WRITE_V_AUTO_MODE s v now).autoModeSwitch = false
    rw [(autoMode_controls s v now).2.2.1]; exact hop
  · show (updateDisplay s now).autoModeSwitch = false
    rw [(updateDisplay_controls s now).2.2.1]; exact h

theorem autoOff_runOps (ops : List Op) :
    ∀ s : State, s.autoModeSwitch = false → (∀ op ∈ ops, op.isSetAutoTrue = false) →
      (runOps s ops).autoModeSwitch = false := by
  induction ops with
  | nil => intro s h _; exact h
  | cons op ops ih =>
    intro s h hops
    exact ih (op.apply s) (autoOff_apply s op h (hops op (by simp)))
      (fun o ho => hops o (List.mem_cons_of_mem _ ho))

/-- C9: the remote select-mode handler with value 1 yields `displayMode == 1`
and `autoModeSwitch == false`; after any sequence of calls that does not
contain the set-auto handler with a true value, auto rotation is still off and
the display step leaves `displayMode` alone at every uptime. -/
theorem manual_select_stops_auto_rotation (s : State) (ops : List Op) (now : Nat)
    (hauto : s.autoModeSwitch = true)
    (hops : ∀ op ∈ ops, op.isSetAutoTrue = false) :
    (BLYNK_WRITE_V_SELECT_MODE s 1).displayMode = 1
    ∧ (BLYNK_WRITE_V_SELECT_MODE s 1).autoModeSwitch = false
    ∧ (runOps (BLYNK_WRITE_V_SELECT_MODE s 1) ops).autoModeSwitch = false
    ∧ (updateDisplay (runOps (BLYNK_WRITE_V_SELECT_MODE s 1) ops) now).displayMode
        = (runOps (BLYNK_WRITE_V_SELECT_MODE s 1) ops).displayMode := by
  obtain ⟨_, _, c3, c4⟩ := selectMode_controls s 1
  have hoff : (BLYNK_WRITE_V_SELECT_MODE s 1).autoModeSwitch = false := by
    rw [c3, hauto]; simp
  have hrun := autoOff_runOps ops _ hoff hops
  refine ⟨by rw [c4]; simp, hoff, hrun, ?_⟩
  rw [(updateDisplay_controls _ now).2.2.2, hrun]
  simp

theorem manual_select_stops_auto_rotation_witness :
    (BLYNK_WRITE_V_SELECT_MODE (setup 7 0 0 false) 1).displayMode = 1
    ∧ (BLYNK_WRITE_V_SELECT_MODE (setup 7 0 0 false) 1).autoModeSwitch = false
    ∧ (runOps (BLYNK_WRITE_V_SELECT_MODE (setup 7 0 0 false) 1) idleOps).autoModeSwitch = false
    ∧ (updateDisplay (runOps (BLYNK_WRITE_V_SELECT_MODE (setup 7 0 0 false) 1) idleOps)
          86400000).displayMode
        = (runOps (BLYNK_WRITE_V_SELECT_MODE (setup 7 0 0 false) 1) idleOps).displayMode :=
  manual_select_stops_auto_rotation (setup 7 0 0 false) idleOps 86400000 (by decide) (by decide)

/-- C10: the remote select-mode handler with a value outside {0, 1, 2} leaves
the whole state unchanged, in particular `displayMode`, `autoModeSwitch`,
`lastModeSwitch`, the alarm configuration, `alarmRinging` and `alarmMuted`. -/
theorem select_mode_rejects_out_of_range (s : State) (v : Int) (h : v < 0 ∨ 2 < v) :
    BLYNK_WRITE_V_SELECT_MODE s v = s
    ∧ (BLYNK_WRITE_V_SELECT_MODE s v).displayMode = s.displayMode
    ∧ (BLYNK_WRITE_V_SELECT_MODE s v).autoModeSwitch = s.autoModeSwitch
    ∧ (BLYNK_WRITE_V_SELECT_MODE s v).lastModeSwitch = s.lastModeSwitch
    ∧ (BLYNK_WRITE_V_SELECT_MODE s v).alarm = s.alarm
    ∧ (BLYNK_WRITE_V_SELECT_MODE s v).alarmRinging = s.alarmRinging
    ∧ (BLYNK_WRITE_V_SELECT_MODE s v).alarmMuted = s.alarmMuted := by
  have hv : ¬ (v ≥ 0 ∧ v ≤ 2) := by omega
  have he : BLYNK_WRITE_V_SELECT_MODE s v = s := by
    simp only [BLYNK_WRITE_V_SELECT_MODE, if_neg hv]
  rw [he]
  exact ⟨rfl, rfl, rfl, rfl, rfl, rfl, rfl⟩

theorem select_mode_rejects_out_of_range_witness :
    BLYNK_WRITE_V_SELECT_MODE ringingPressed 3 = ringingPressed
    ∧ (BLYNK_WRITE_V_SELECT_MODE ringingPressed 3).displayMode = ringingPressed.displayMode
    ∧ (BLYNK_WRITE_V_SELECT_MODE ringingPressed 3).autoModeSwitch
        = ringingPressed.autoModeSwitch
    ∧ (BLYNK_WRITE_V_SELECT_MODE ringingPressed 3).lastModeSwitch
        = ringingPressed.lastModeSwitch
    ∧ (BLYNK_WRITE_V_SELECT_MODE ringingPressed 3).alarm = ringingPressed.alarm
    ∧ (BLYNK_WRITE_V_SELECT_MODE ringingPressed 3).alarmRinging = ringingPressed.alarmRinging
    ∧ (BLYNK_WRITE_V_SELECT_MODE ringingPressed 3).alarmMuted = ringingPressed.alarmMuted :=
  select_mode_rejects_out_of_range ringingPressed 3 (by decide)

/-! ## Persistence of the alarm -/

theorem toByte_of_byte (v : Int) (h0 : 0 ≤ v) (h1 : v ≤ 255) : ((toByte v : Nat) : Int) = v := by
  unfold toByte
  omega

theorem loadAlarm_alarm (s : State) :
    (loadAlarm s).alarm
      = ⟨if (s.eeprom0 : Int) > 23 then 7 else (s.eeprom0 : Int),
          if (s.eeprom1 : Int) > 59 then 0 else (s.eeprom1 : Int),
          s.eeprom2 == 1⟩ := rfl

/-- C11: for every alarm configuration with hour in 0..23 and minute in 0..59
and either value of the enabled flag, `saveAlarm` writes the hour, the minute
and 1 or 0 as bytes, and `loadAlarm` (also after a restart, in `setup`) reads
back exactly the same configuration. -/
theorem saveAlarm_loadAlarm_roundtrip (s : State) (wifi : Bool)
    (hh : 0 ≤ s.alarm.hour ∧ s.alarm.hour ≤ 23)
    (hm : 0 ≤ s.alarm.minute ∧ s.alarm.minute ≤ 59) :
    ((saveAlarm s).eeprom0 : Int) = s.alarm.hour
    ∧ ((saveAlarm s).eeprom1 : Int) = s.alarm.minute
    ∧ (saveAlarm s).eeprom2 = (if s.alarm.enabled then 1 else 0)
    ∧ (loadAlarm (saveAlarm s)).alarm = s.alarm
    ∧ (setup (saveAlarm s).eeprom0 (saveAlarm s).eeprom1 (saveAlarm s).eeprom2 wifi).alarm
        = s.alarm := by
  have e0 : ((saveAlarm s).eeprom0 : Int) = s.alarm.hour :=
    toByte_of_byte s.alarm.hour hh.1 (by omega)
  have e1 : ((saveAlarm s).eeprom1 : Int) = s.alarm.minute :=
    toByte_of_byte s.alarm.minute hm.1 (by omega)
  have e2 : (saveAlarm s).eeprom2 = (if s.alarm.enabled then 1 else 0) := by
    show toByte (if s.alarm.enabled then 1 else 0) = _
    cases s.alarm.enabled <;> rfl
  have hload : ∀ t : State, t.eeprom0 = (saveAlarm s).eeprom0 → t.eeprom1 = (saveAlarm s).eeprom1 →
      t.eeprom2 = (saveAlarm s).eeprom2 → (loadAlarm t).alarm = s.alarm := by
    intro t h0 h1 h2
    rw [loadAlarm_alarm, h0, h1, h2, e0, e1, e2]
    have hh' : ¬ s.alarm.hour > 23 := by omega
    have hm' : ¬ s.alarm.minute > 59 := by omega
    rw [if_neg hh', if_neg hm']
    cases hen : s.alarm.enabled <;> cases hs : s.alarm <;> simp_all
  exact ⟨e0, e1, e2, hload _ rfl rfl rfl, hload _ rfl rfl rfl⟩

theorem saveAlarm_loadAlarm_roundtrip_witness :
    ((saveAlarm alarmDemoStart).eeprom0 : Int) = alarmDemoStart.alarm.hour
    ∧ ((saveAlarm alarmDemoStart).eeprom1 : Int) = alarmDemoStart.alarm.minute
    ∧ (saveAlarm alarmDemoStart).eeprom2 = (if alarmDemoStart.alarm.enabled then 1 else 0)
    ∧ (loadAlarm (saveAlarm alarmDemoStart)).alarm = alarmDemoStart.alarm
    ∧ (setup (saveAlarm alarmDemoStart).eeprom0 (saveAlarm alarmDemoStart).eeprom1
          (saveAlarm alarmDemoStart).eeprom2 true).alarm
        = alarmDemoStart.alarm :=
  saveAlarm_loadAlarm_roundtrip alarmDemoStart true (by decide) (by decide)

/-- C12 (amended): for every stored content whose hour byte is out of range
(above 23), `loadAlarm` yields hour 7; the minute and the enabled flag are
still taken from their own bytes: the minute is the stored byte, or 0 when
that byte is above 59, and enabled is set exactly when the stored byte is 1.
The result is the default (7, 0, false) when the minute byte is 0 or out of
range and the enabled byte is not 1. -/
theorem loadAlarm_clamps_field_by_field (s : State) (h : s.eeprom0 > 23) :
    (loadAlarm s).alarm.hour = 7
    ∧ (loadAlarm s).alarm.minute = (if s.eeprom1 > 59 then 0 else (s.eeprom1 : Int))
    ∧ (loadAlarm s).alarm.enabled = (s.eeprom2 == 1)
    ∧ ((s.eeprom1 = 0 ∨ s.eeprom1 > 59) → s.eeprom2 ≠ 1 →
        (loadAlarm s).alarm = ⟨7, 0, false⟩) := by
  have h0 : (s.eeprom0 : Int) > 23 := by omega
  rw [loadAlarm_alarm]
  simp only [h0, if_true]
  refine ⟨trivial, ?_, trivial, ?_⟩
  · by_cases h1 : s.eeprom1 > 59
    · have : (s.eeprom1 : Int) > 59 := by omega
      simp [h1, this]
    · have : ¬ (s.eeprom1 : Int) > 59 := by omega
      simp [h1, this]
  · intro h1 h2
    have hm : (if (s.eeprom1 : Int) > 59 then (0 : Int) else (s.eeprom1 : Int)) = 0 := by
      split_ifs <;> omega
    rw [hm]
    simp [h2]

theorem loadAlarm_clamps_field_by_field_witness :
    (loadAlarm (powerOn 99 30 1)).alarm.hour = 7
    ∧ (loadAlarm (powerOn 99 30 1)).alarm.minute
        = (if (powerOn 99 30 1).eeprom1 > 59 then 0 else ((powerOn 99 30 1).eeprom1 : Int))
    ∧ (loadAlarm (powerOn 99 30 1)).alarm.enabled = ((powerOn 99 30 1).eeprom2 == 1)
    ∧ (((powerOn 99 30 1).eeprom1 = 0 ∨ (powerOn 99 30 1).eeprom1 > 59) →
        (powerOn 99 30 1).eeprom2 ≠ 1 → (loadAlarm (powerOn 99 30 1)).alarm = ⟨7, 0, false⟩) :=
  loadAlarm_clamps_field_by_field (powerOn 99 30 1) (by decide)

/-- C12 (as stated) fails: with the stored bytes 99, 30, 1 the hour byte is out
of range and `loadAlarm` yields 07:30 enabled, not the default (7, 0, false). -/
theorem loadAlarm_keeps_minute_and_enabled :
    (powerOn 99 30 1).eeprom0 = 99
    ∧ (loadAlarm (powerOn 99 30 1)).alarm = ⟨7, 30, true⟩
    ∧ (loadAlarm (powerOn 99 30 1)).alarm ≠ ⟨7, 0, false⟩
    ∧ (setup 99 30 1 false).alarm ≠ ⟨7, 0, false⟩ := by
  decide

/-! ## Range of the alarm configuration -/

theorem alarmInRange_setup (e0 e1 e2 : Nat) (wifi : Bool) :
    alarmInRange (setup e0 e1 e2 wifi) := by
  have h : (setup e0 e1 e2 wifi).alarm
      = ⟨if (e0 : Int) > 23 then 7 else (e0 : Int), if (e1 : Int) > 59 then 0 else (e1 : Int),
          e2 == 1⟩ := rfl
  unfold alarmInRange
  rw [h]
  refine ⟨?_, ?_, ?_, ?_⟩ <;> simp only [] <;> split_ifs <;> omega

theorem alarm_handlers_store_argument (s : State) (v : Int) :
    (BLYNK_WRITE_V_ALARM_HOUR s v).alarm = { s.alarm with hour := v }
    ∧ (BLYNK_WRITE_V_ALARM_MIN s v).alarm = { s.alarm with minute := v }
    ∧ (BLYNK_WRITE_V_ALARM_EN s v).alarm = { s.alarm with enabled := decide (v ≠ 0) } :=
  ⟨rfl, rfl, rfl⟩

/-- C13 fails on the code: after `setup` the alarm configuration is in range,
but the remote set-hour handler with the value 99 stores 99 in `alarm.hour`,
and the set-minute handler with the value -1 stores -1 in `alarm.minute`.
The byte 99 saved by the handler is replaced by 7 at the next start, so the
configuration set at run time does not survive a restart. -/
theorem alarm_handler_leaves_range :
    alarmInRange (setup 7 30 1 false)
    ∧ (BLYNK_WRITE_V_ALARM_HOUR (setup 7 30 1 false) 99).alarm.hour = 99
    ∧ ¬ alarmInRange (BLYNK_WRITE_V_ALARM_HOUR (setup 7 30 1 false) 99)
    ∧ (BLYNK_WRITE_V_ALARM_MIN (setup 7 30 1 false) (-1)).alarm.minute = -1
    ∧ ¬ alarmInRange (BLYNK_WRITE_V_ALARM_MIN (setup 7 30 1 false) (-1))
    ∧ ¬ alarmInRange (runOps (setup 7 30 1 false) [.alarmEn 1, .alarmHour 99])
    ∧ (BLYNK_WRITE_V_ALARM_HOUR (setup 7 30 1 false) 99).eeprom0 = 99
    ∧ (setup (BLYNK_WRITE_V_ALARM_HOUR (setup 7 30 1 false) 99).eeprom0
          (BLYNK_WRITE_V_ALARM_HOUR (setup 7 30 1 false) 99).eeprom1
          (BLYNK_WRITE_V_ALARM_HOUR (setup 7 30 1 false) 99).eeprom2 false).alarm.hour = 7 := by
  decide

/-! ## Buzzer pattern -/

theorem playAlarmSound_toggle (s : State) (now : Nat)
    (h : subUL (millis now) s.lastBuzzerToggle > toggleWait s) :
    playAlarmSound s now
      = { s with
          lastBuzzerToggle := millis now
          buzzerState := !s.buzzerState
          buzzerPin := !s.buzzerState } := by
  unfold toggleWait at h
  unfold playAlarmSound
  rw [if_pos h]

theorem playAlarmSound_wait (s : State) (now : Nat)
    (h : subUL (millis now) s.lastBuzzerToggle ≤ toggleWait s) :
    playAlarmSound s now = s := by
  unfold toggleWait at h
  unfold playAlarmSound
  rw [if_neg (by omega)]

theorem playTicks_wait (ns : List Nat) (s : State)
    (h : ∀ n ∈ ns, subUL (millis n) s.lastBuzzerToggle ≤ toggleWait s) :
    playTicks s ns = s := by
  induction ns with
  | nil => rfl
  | cons n rest ih =>
    have h1 := playAlarmSound_wait s n (h n (by simp))
    have hrun : playTicks s (n :: rest) = playTicks (playAlarmSound s n) rest := rfl
    rw [hrun, h1]
    exact ih (fun m hm => h m (List.mem_cons_of_mem _ hm))

/-- While the alarm rings, is enabled and has not timed out, a `checkAlarm`
tick is a `playAlarmSound` tick. -/
theorem checkAlarm_plays (s : State) (t : Time) (now : Nat)
    (hen : s.alarm.enabled = true) (hring : s.alarmRinging = true)
    (hwin : subUL (millis now) s.alarmStartTime ≤ ALARM_DURATION) :
    checkAlarm s t now = playAlarmSound s now := by
  have hp := playAlarmSound_frame s now
  have hno : ¬ subUL (millis now) (playAlarmSound s now).alarmStartTime > ALARM_DURATION := by
    rw [hp.2.1]; omega
  simp only [checkAlarm, hen, hring, Bool.not_true, Bool.false_eq_true, if_false, and_false,
    Bool.true_eq_false, if_true, if_neg hno]

/-- C14 (amended): over a sequence of `playAlarmSound` ticks the buzzer follows
the two-phase pattern ON 1000 ms / OFF 500 ms: when `buzzerState` is ON it
stays ON on every tick at most 1000 ms after the last toggle and is switched
OFF on the first tick more than 1000 ms after it; when it is OFF it stays OFF
on every tick at most 500 ms after the last toggle and is switched ON on the
first tick more than 500 ms after it.  The toggle records its time and writes
the new level to the buzzer pin. -/
theorem playAlarmSound_on_1000_off_500 (s : State) (waiting : List Nat) (now : Nat)
    (hwait : ∀ n ∈ waiting,
      subUL (millis n) s.lastBuzzerToggle ≤ (if s.buzzerState then 1000 else 500))
    (hnow : subUL (millis now) s.lastBuzzerToggle > (if s.buzzerState then 1000 else 500)) :
    playTicks s waiting = s
    ∧ (playTicks s (waiting ++ [now])).buzzerState = (!s.buzzerState)
    ∧ (playTicks s (waiting ++ [now])).buzzerPin = (!s.buzzerState)
    ∧ (playTicks s (waiting ++ [now])).lastBuzzerToggle = millis now
    ∧ toggleWait (playTicks s (waiting ++ [now])) = (if s.buzzerState then 500 else 1000) := by
  have hq := playTicks_wait waiting s hwait
  have hrun : playTicks s (waiting ++ [now]) = playAlarmSound (playTicks s waiting) now := by
    simp [playTicks, List.foldl_append]
  rw [hrun, hq, playAlarmSound_toggle s now hnow]
  refine ⟨rfl, rfl, rfl, rfl, ?_⟩
  unfold toggleWait
  cases s.buzzerState <;> rfl

theorem playAlarmSound_on_1000_off_500_witness :
    playTicks buzzerOnDemo [1300, 1600, 2000] = buzzerOnDemo
    ∧ (playTicks buzzerOnDemo ([1300, 1600, 2000] ++ [2001])).buzzerState
        = (!buzzerOnDemo.buzzerState)
    ∧ (playTicks buzzerOnDemo ([1300, 1600, 2000] ++ [2001])).buzzerPin
        = (!buzzerOnDemo.buzzerState)
    ∧ (playTicks buzzerOnDemo ([1300, 1600, 2000] ++ [2001])).lastBuzzerToggle = millis 2001
    ∧ toggleWait (playTicks buzzerOnDemo ([1300, 1600, 2000] ++ [2001]))
        = (if buzzerOnDemo.buzzerState then 500 else 1000) :=
  playAlarmSound_on_1000_off_500 buzzerOnDemo [1300, 1600, 2000] 2001 (by decide) (by decide)

/-- C14 (as stated) fails: the buzzer is ON since 1000 ms; the tick at 1600 ms,
more than 500 ms after the toggle, leaves it ON, and it goes OFF only at
2001 ms; OFF since 2001 ms, the tick at 2502 ms, less than 1000 ms after the
toggle, switches it ON again. -/
theorem playAlarmSound_on_phase_longer_than_500 :
    buzzerOnDemo.buzzerState = true
    ∧ buzzerOnDemo.lastBuzzerToggle = 1000
    ∧ subUL (millis 1600) buzzerOnDemo.lastBuzzerToggle = 600
    ∧ (playAlarmSound buzzerOnDemo 1600).buzzerState = true
    ∧ (playTicks buzzerOnDemo [1600, 2001]).buzzerState = false
    ∧ (playTicks buzzerOnDemo [1600, 2001]).lastBuzzerToggle = 2001
    ∧ (playTicks buzzerOnDemo [1600, 2001, 2502]).buzzerState = true
    ∧ (runOps alarmDemoStart
        [.alarmTick ⟨7, 30, 0⟩ 1000, .alarmTick ⟨7, 30, 0⟩ 1600]).buzzerState = true := by
  decide

/-! ## One ring per matching second -/

theorem checkAlarm_alarm (s : State) (t : Time) (now : Nat) :
    (checkAlarm s t now).alarm = s.alarm := by
  simp only [checkAlarm, stopAlarmSound, playAlarmSound, apply_ite State.alarm, ite_self]

theorem stopAlarm_alarm (s : State) (v : Int) :
    (BLYNK_WRITE_V_STOP_ALARM s v).alarm = s.alarm := by
  simp only [BLYNK_WRITE_V_STOP_ALARM, stopAlarmSound, apply_ite State.alarm, ite_self]

theorem handlePhysicalButton_alarm (s : State) (r : Bool) (now : Nat) :
    (handlePhysicalButton s r now).alarm = s.alarm := by
  simp only [handlePhysicalButton, stopAlarmSound, apply_ite State.alarm, ite_self]

theorem handlePhysicalButton_idle (s : State) (r : Bool) (now : Nat)
    (h : s.alarmRinging = false) : (handlePhysicalButton s r now).alarmRinging = false := by
  simp only [handlePhysicalButton, stopAlarmSound, apply_ite State.alarmRinging, h, ite_self]

theorem alarmStep_alarm (base : Nat) (s : State) (e : AlarmEvent) :
    (alarmStep base s e).alarm = s.alarm := by
  cases e with
  | tick now => exact checkAlarm_alarm s _ now
  | ackRemote now => exact stopAlarm_alarm s 1
  | button r now => exact handlePhysicalButton_alarm s r now

/-- With the alarm enabled, the ring starts only on a tick on which the RTC
reads `hour:minute:00`. -/
theorem rise_only_at_matching_tick (base : Nat) (s : State) (e : AlarmEvent)
    (hen : s.alarm.enabled = true) (hidle : s.alarmRinging = false)
    (hrise : (alarmStep base s e).alarmRinging = true) :
    clockMatches s (rtcAt base e.now) := by
  cases e with
  | tick now =>
    by_contra hc
    have hc' : ¬ clockMatches s (rtcAt base now) := hc
    have h : (checkAlarm s (rtcAt base now) now).alarmRinging = true := hrise
    rw [checkAlarm_idle s (rtcAt base now) now hen hidle hc', hidle] at h
    exact absurd h (by decide)
  | ackRemote now =>
    have h : (BLYNK_WRITE_V_STOP_ALARM s 1).alarmRinging = true := hrise
    simp [BLYNK_WRITE_V_STOP_ALARM, hidle] at h
  | button r now =>
    have h : (handlePhysicalButton s r now).alarmRinging = true := hrise
    rw [handlePhysicalButton_idle s r now hidle] at h
    exact absurd h (by decide)

/-- Every ring starts after the previous call has returned, and at least
2000 ms later when the alarm was ringing then. -/
theorem rise_after_block (base : Nat) (evs : List AlarmEvent) :
    ∀ (s : State) (earliest : Nat), wellTimed base s earliest evs = true →
      ∀ n ∈ riseTimes base s evs, earliest + (if s.alarmRinging then 2000 else 0) ≤ n := by
  induction evs with
  | nil => intro s earliest _ n hn; simp [riseTimes] at hn
  | cons e rest ih =>
    intro s earliest ht n hn
    simp only [wellTimed, Bool.and_eq_true, decide_eq_true_eq] at ht
    obtain ⟨hle, hrest⟩ := ht
    have ih' := ih (alarmStep base s e) (e.now + blockedFor base s e) hrest
    simp only [riseTimes, List.mem_append] at hn
    cases hs : s.alarmRinging <;> cases hs' : (alarmStep base s e).alarmRinging
    · rw [hs, hs'] at hn
      rcases hn with hn | hn
      · simp at hn
      · have := ih' n hn
        rw [hs'] at this
        simp only [Bool.false_eq_true, if_false] at this ⊢
        omega
    · rw [hs, hs'] at hn
      rcases hn with hn | hn
      · simp only [Bool.not_false, Bool.and_self, if_true, List.mem_singleton] at hn
        simp only [Bool.false_eq_true, if_false]
        omega
      · have := ih' n hn
        rw [hs'] at this
        simp only [Bool.false_eq_true, if_false] at this ⊢
        omega
    · rw [hs, hs'] at hn
      rcases hn with hn | hn
      · simp at hn
      · have := ih' n hn
        have hb : blockedFor base s e = 2000 := by simp [blockedFor, hs, hs']
        rw [hs', hb] at this
        simp only [Bool.false_eq_true, if_false, if_true] at this ⊢
        omega
    · rw [hs, hs'] at hn
      rcases hn with hn | hn
      · simp at hn
      · have := ih' n hn
        rw [hs'] at this
        simp only [if_true] at this ⊢
        omega

/-- Every ring starts on a tick on which the RTC reads `hour:minute:00`. -/
theorem rise_reads_alarm_time (base : Nat) (evs : List AlarmEvent) :
    ∀ s : State, s.alarm.enabled = true →
      ∀ n ∈ riseTimes base s evs, clockMatches s (rtcAt base n) := by
  induction evs with
  | nil => intro s _ n hn; simp [riseTimes] at hn
  | cons e rest ih =>
    intro s hen n hn
    have ha := alarmStep_alarm base s e
    simp only [riseTimes, List.mem_append] at hn
    rcases hn with hn | hn
    · cases hs : s.alarmRinging <;> cases hs' : (alarmStep base s e).alarmRinging <;>
        rw [hs, hs'] at hn <;> simp at hn
      rw [hn]
      exact rise_only_at_matching_tick base s e hen hs hs'
    · have h := ih (alarmStep base s e) (by rw [ha]; exact hen) n hn
      unfold clockMatches at h ⊢
      rw [ha] at h
      exact h

/-- Two uptimes at least 2000 ms apart on which the running RTC reads the same
`hour:minute:00` are at least a day apart. -/
theorem same_reading_day_apart (base a b : Nat) (s : State)
    (ha : clockMatches s (rtcAt base a)) (hb : clockMatches s (rtcAt base b))
    (hab : a + 2000 ≤ b) : rtcSecond base a + 86400 ≤ rtcSecond base b := by
  unfold clockMatches rtcAt at ha hb
  unfold rtcSecond
  simp only [] at ha hb
  omega

theorem clockMatches_alarmStep (base : Nat) (s : State) (e : AlarmEvent) (t : Time) :
    clockMatches (alarmStep base s e) t ↔ clockMatches s t := by
  unfold clockMatches
  rw [alarmStep_alarm]

/-- The rings that follow a ring are at least 2000 ms later and start on the
same reading `hour:minute:00`, hence at least a day later. -/
theorem later_rises_day_apart (base : Nat) (s : State) (e : AlarmEvent) (rest : List AlarmEvent)
    (earliest : Nat) (hen : s.alarm.enabled = true) (hidle : s.alarmRinging = false)
    (hrise : (alarmStep base s e).alarmRinging = true)
    (ht : wellTimed base s earliest (e :: rest) = true) :
    ∀ n ∈ riseTimes base (alarmStep base s e) rest,
      clockMatches s (rtcAt base n) ∧ rtcSecond base e.now + 86400 ≤ rtcSecond base n := by
  intro n hn
  simp only [wellTimed, Bool.and_eq_true, decide_eq_true_eq] at ht
  have hb : blockedFor base s e = 0 := by simp [blockedFor, hidle]
  have hlate := rise_after_block base rest (alarmStep base s e) _ ht.2 n hn
  rw [hrise, hb] at hlate
  simp only [if_true] at hlate
  have hen' : (alarmStep base s e).alarm.enabled = true := by
    rw [alarmStep_alarm]; exact hen
  have hmn : clockMatches s (rtcAt base n) :=
    (clockMatches_alarmStep base s e _).1
      (rise_reads_alarm_time base rest (alarmStep base s e) hen' n hn)
  have hme := rise_only_at_matching_tick base s e hen hidle hrise
  exact ⟨hmn, same_reading_day_apart base e.now n s hme hmn (by omega)⟩

/-- Any two rings of a run are at least a day apart. -/
theorem rises_day_apart (base : Nat) (evs : List AlarmEvent) :
    ∀ (s : State) (earliest : Nat), s.alarm.enabled = true →
      wellTimed base s earliest evs = true →
      List.Pairwise (fun a b => rtcSecond base a + 86400 ≤ rtcSecond base b)
        (riseTimes base s evs) := by
  induction evs with
  | nil => intro s earliest _ _; simp [riseTimes]
  | cons e rest ih =>
    intro s earliest hen ht
    have hen' : (alarmStep base s e).alarm.enabled = true := by
      rw [alarmStep_alarm]; exact hen
    have ht' := ht
    simp only [wellTimed, Bool.and_eq_true, decide_eq_true_eq] at ht'
    have ih' := ih (alarmStep base s e) _ hen' ht'.2
    by_cases hr : (!s.alarmRinging && (alarmStep base s e).alarmRinging) = true
    · have hidle : s.alarmRinging = false := by
        cases hs : s.alarmRinging <;> simp_all
      have hrise : (alarmStep base s e).alarmRinging = true := by
        cases hs : (alarmStep base s e).alarmRinging <;> simp_all
      simp only [riseTimes, hr, if_true, List.singleton_append, List.pairwise_cons]
      exact ⟨fun n hn => (later_rises_day_apart base s e rest earliest hen hidle hrise ht n hn).2,
        ih'⟩
    · simp only [riseTimes, hr, Bool.false_eq_true, if_false, List.nil_append]
      exact ih'

/-- C1: the RTC runs with the uptime and a call that stops the ring blocks for
the `delay(2000)` of `stopAlarmSound`.  With the alarm enabled and idle, over
every sequence of `checkAlarm` ticks interleaved with acknowledgements (remote
stop, button) that starts with a tick on which the RTC reads
`hour:minute:00`, `alarmRinging` goes from false to true on that first tick,
and every later rise is on a tick on which the RTC reads `hour:minute:00` of
a later day (at least 86400 RTC seconds after): within the matching second
the ring starts exactly once, also when it was acknowledged, and any two rises
of the run are at least a day apart. -/
theorem alarm_rings_once_per_matching_second (base : Nat) (s : State) (n0 : Nat)
    (rest : List AlarmEvent)
    (hen : s.alarm.enabled = true) (hidle : s.alarmRinging = false)
    (hclock : clockMatches s (rtcAt base n0))
    (htimed : wellTimed base s 0 (.tick n0 :: rest) = true) :
    riseTimes base s (.tick n0 :: rest)
      = n0 :: riseTimes base (alarmStep base s (.tick n0)) rest
    ∧ (∀ n ∈ riseTimes base (alarmStep base s (.tick n0)) rest,
        clockMatches s (rtcAt base n) ∧ rtcSecond base n0 + 86400 ≤ rtcSecond base n)
    ∧ (∀ n ∈ riseTimes base (alarmStep base s (.tick n0)) rest,
        rtcSecond base n ≠ rtcSecond base n0)
    ∧ List.Pairwise (fun a b => rtcSecond base a + 86400 ≤ rtcSecond base b)
        (riseTimes base s (.tick n0 :: rest)) := by
  have hrise : (alarmStep base s (.tick n0)).alarmRinging = true :=
    (checkAlarm_start s (rtcAt base n0) n0 hen hidle hclock).1
  have hlater := later_rises_day_apart base s (.tick n0) rest 0 hen hidle hrise htimed
  refine ⟨?_, hlater, ?_, rises_day_apart base _ s 0 hen htimed⟩
  · simp [riseTimes, hidle, hrise, AlarmEvent.now]
  · intro n hn
    have := (hlater n hn).2
    simp only [AlarmEvent.now] at this
    omega

theorem alarm_rings_once_per_matching_second_witness :
    (rtcAt rtcDemoBase 1000 = ⟨7, 30, 0⟩
      ∧ rtcAt rtcDemoBase 3500 = ⟨7, 30, 2⟩
      ∧ (alarmStep rtcDemoBase (runOps alarmDemoStart
            [.alarmTick (rtcAt rtcDemoBase 1000) 1000, .alarmTick (rtcAt rtcDemoBase 1300) 1300])
          (.ackRemote 1500)).alarmRinging = false
      ∧ riseTimes rtcDemoBase alarmDemoStart (.tick 1000 :: alarmDayEvents) = [1000, 86401000])
    ∧ (riseTimes rtcDemoBase alarmDemoStart (.tick 1000 :: alarmDayEvents)
        = 1000 :: riseTimes rtcDemoBase (alarmStep rtcDemoBase alarmDemoStart (.tick 1000))
            alarmDayEvents
      ∧ (∀ n ∈ riseTimes rtcDemoBase (alarmStep rtcDemoBase alarmDemoStart (.tick 1000))
            alarmDayEvents,
          clockMatches alarmDemoStart (rtcAt rtcDemoBase n)
            ∧ rtcSecond rtcDemoBase 1000 + 86400 ≤ rtcSecond rtcDemoBase n)
      ∧ (∀ n ∈ riseTimes rtcDemoBase (alarmStep rtcDemoBase alarmDemoStart (.tick 1000))
            alarmDayEvents,
          rtcSecond rtcDemoBase n ≠ rtcSecond rtcDemoBase 1000)
      ∧ List.Pairwise (fun a b => rtcSecond rtcDemoBase a + 86400 ≤ rtcSecond rtcDemoBase b)
          (riseTimes rtcDemoBase alarmDemoStart (.tick 1000 :: alarmDayEvents))) :=
  ⟨by decide,
    alarm_rings_once_per_matching_second rtcDemoBase alarmDemoStart 1000 alarmDayEvents
      (by decide) (by decide) (by decide) (by decide)⟩

end SmartClock
